import Mathlib

/-!
Verification development for the `codex-replier` GitHub action
(`.github/actions/codex-replier/replier.py`).

The Python program is shallowly embedded:
* JSON values (the event payload and HTTP response bodies) are the
  inductive `JVal`; Python truthiness, `dict.get`, `str()` rendering and
  `x or y` are modelled by explicit functions (`pyTruthy`, `dictGet`,
  `pyStr`, `pyOr`).
* An attribute access on a non-dict (Python `AttributeError`) and similar
  type errors are modelled as an uncaught exception, i.e. a process crash.
* The process's observable behaviour is tracked by the writer/except
  monad `ERes`: an `Except ExitKind` result together with the list of
  outbound network requests, the list of printed log lines, and the list
  of bodies handed to the comment-posting step.
* External effects (subprocess runs, the four HTTP endpoints) are
  resolved by an oracle `World` supplied to the run.
-/

/-- JSON values, as produced by Python's `json.load`/`json.loads`. -/
inductive JVal where
  | null
  | jstr (s : String)
  | jnum (n : Int)
  | jbool (b : Bool)
  | jarr (xs : List JVal)
  | jobj (kvs : List (String × JVal))

mutual

/-- Structural equality of JSON values (Python `==` on loaded JSON data;
the numeric coercions `True == 1` etc. do not arise for the values this
program compares). -/
def JVal.beq : JVal → JVal → Bool
  | .null, .null => true
  | .jstr a, .jstr b => a == b
  | .jnum a, .jnum b => a == b
  | .jbool a, .jbool b => a == b
  | .jarr xs, .jarr ys => JVal.beqArr xs ys
  | .jobj xs, .jobj ys => JVal.beqObj xs ys
  | _, _ => false

def JVal.beqArr : List JVal → List JVal → Bool
  | [], [] => true
  | a :: as, b :: bs => JVal.beq a b && JVal.beqArr as bs
  | _, _ => false

def JVal.beqObj : List (String × JVal) → List (String × JVal) → Bool
  | [], [] => true
  | (k1, v1) :: as, (k2, v2) :: bs => k1 == k2 && JVal.beq v1 v2 && JVal.beqObj as bs
  | _, _ => false

end

mutual

theorem JVal.beq_refl : ∀ a : JVal, JVal.beq a a = true
  | .null => rfl
  | .jstr s => by simp [JVal.beq]
  | .jnum n => by simp [JVal.beq]
  | .jbool b => by simp [JVal.beq]
  | .jarr xs => by simp [JVal.beq, JVal.beqArr_refl xs]
  | .jobj xs => by simp [JVal.beq, JVal.beqObj_refl xs]

theorem JVal.beqArr_refl : ∀ xs : List JVal, JVal.beqArr xs xs = true
  | [] => rfl
  | a :: as => by simp [JVal.beqArr, JVal.beq_refl a, JVal.beqArr_refl as]

theorem JVal.beqObj_refl : ∀ xs : List (String × JVal), JVal.beqObj xs xs = true
  | [] => rfl
  | (k, v) :: as => by simp [JVal.beqObj, JVal.beq_refl v, JVal.beqObj_refl as]

end

/-- Python truthiness of a JSON value (`bool(x)`). -/
def pyTruthy : JVal → Bool
  | .null => false
  | .jstr s => s != ""
  | .jnum n => n != 0
  | .jbool b => b
  | .jarr xs => !xs.isEmpty
  | .jobj kvs => !kvs.isEmpty

/-- Python `x or y` on JSON values. -/
def pyOr (a b : JVal) : JVal := if pyTruthy a then a else b

/-- Association-list lookup with the later-binding-wins behaviour of a
Python dict built by `json.loads`. -/
def lookupKV (kvs : List (String × JVal)) (key : String) : Option JVal :=
  kvs.foldl (fun acc p => if p.1 == key then some p.2 else acc) none

/-- `d.get(key)` on a value known to be a dict (`None` for a missing key
is `JVal.null`). -/
def dictGet (v : JVal) (key : String) : JVal :=
  match v with
  | .jobj kvs => (lookupKV kvs key).getD .null
  | _ => .null

/-- `v.get(key)` with Python crash semantics: an `AttributeError` when
`v` is not a dict. -/
def pyGet (v : JVal) (key : String) : Except String JVal :=
  match v with
  | .jobj _ => .ok (dictGet v key)
  | _ => .error "AttributeError: no attribute get"

/-- `v.get(key, default)` with Python crash semantics. -/
def pyGetD (v : JVal) (key : String) (d : JVal) : Except String JVal :=
  match v with
  | .jobj kvs => .ok ((lookupKV kvs key).getD d)
  | _ => .error "AttributeError: no attribute get"

/-- `v[0]`: first element of a list (or first character of a string);
a `TypeError`/`IndexError` otherwise. -/
def pyIndex0 (v : JVal) : Except String JVal :=
  match v with
  | .jarr (x :: _) => .ok x
  | .jarr [] => .error "IndexError"
  | .jstr s =>
    match s.data with
    | c :: _ => .ok (.jstr (String.mk [c]))
    | [] => .error "IndexError"
  | _ => .error "TypeError: not subscriptable"

/-- A string method receiver: an `AttributeError` when the value is not a
string. -/
def asStr (v : JVal) : Except String String :=
  match v with
  | .jstr s => .ok s
  | _ => .error "AttributeError: not a str"

mutual

/-- Python `repr` of a loaded JSON value, used by `str()` on non-strings
(via f-string formatting).  Escaping of quotes/backslashes inside nested
strings is not modelled; no claim depends on it. -/
def pyRepr : JVal → String
  | .null => "None"
  | .jstr s => "'" ++ s ++ "'"
  | .jnum n => toString n
  | .jbool b => if b then "True" else "False"
  | .jarr xs => "[" ++ pyReprArr xs ++ "]"
  | .jobj kvs => "\x7b" ++ pyReprObj kvs ++ "\x7d"

def pyReprArr : List JVal → String
  | [] => ""
  | [x] => pyRepr x
  | x :: y :: rest => pyRepr x ++ ", " ++ pyReprArr (y :: rest)

def pyReprObj : List (String × JVal) → String
  | [] => ""
  | [(k, v)] => "'" ++ k ++ "': " ++ pyRepr v
  | (k, v) :: p :: rest => "'" ++ k ++ "': " ++ pyRepr v ++ ", " ++ pyReprObj (p :: rest)

end

/-- Python `str()` of a loaded JSON value (f-string interpolation). -/
def pyStr (v : JVal) : String :=
  match v with
  | .jstr s => s
  | _ => pyRepr v

/-- The whitespace characters stripped by `str.strip()` (the ASCII ones;
the program only ever strips ASCII whitespace). -/
def pyWs (c : Char) : Bool :=
  c == ' ' || c == '\t' || c == '\n' || c == '\r' || c == '\x0b' || c == '\x0c'

def pyLstripL (l : List Char) : List Char := l.dropWhile pyWs

def pyRstripL (l : List Char) : List Char := (l.reverse.dropWhile pyWs).reverse

/-- `s.strip()`. -/
def pyStrip (s : String) : String := String.mk (pyRstripL (pyLstripL s.data))

/-- `s.lstrip()`. -/
def pyLstrip (s : String) : String := String.mk (pyLstripL s.data)

/-- `s.lower()` (the configuration values compared are ASCII). -/
def pyLower (s : String) : String := String.mk (s.data.map Char.toLower)

/-- `s[:n]` for `n ≥ 0`. -/
def strTake (s : String) (n : Nat) : String := String.mk (s.data.take n)

/-- `int(s)`: surrounding whitespace allowed, optional sign, decimal
digits (digit-group underscores are not modelled; no claim uses them). -/
def pyInt (s : String) : Option Int :=
  let digitsVal : List Char → Option Nat := fun l =>
    if l ≠ [] ∧ l.all Char.isDigit then
      some (l.foldl (fun a c => a * 10 + (c.toNat - 48)) 0)
    else none
  match (pyStrip s).data with
  | '-' :: rest => (digitsVal rest).map (fun n => -(n : Int))
  | '+' :: rest => (digitsVal rest).map (fun n => (n : Int))
  | l => (digitsVal l).map (fun n => (n : Int))

/-- `safe_trim` (replier.py lines 33-37). -/
def safe_trim (text : Option String) (limit : Int) : String :=
  match text with
  | none => ""
  | some s =>
    if (s.length : Int) ≤ limit then s
    else String.mk (s.data.take (max 0 (limit - 1)).toNat ++ ['…'])

/-- `boolish` (replier.py lines 27-30): `str(v).strip().lower()` against
the accepted truthy literals. -/
def boolish (v : Option String) (default : Bool) : Bool :=
  match v with
  | none => default
  | some s => ["1", "true", "yes", "on"].contains (pyLower (pyStrip s))

/-- The process environment: a finite map of variable names to values. -/
abbrev EnvMap := List (String × String)

def envGet (env : EnvMap) (name : String) : Option String :=
  (env.find? (fun p => p.1 == name)).map (·.2)

/-- `x or default` for an optional string `x` (empty string is falsy). -/
def orDflt (v : Option String) (d : String) : String :=
  match v with
  | none => d
  | some s => if s == "" then d else s

/-- `not x` for an optional string `x`. -/
def optFalsyStr (v : Option String) : Bool :=
  match v with
  | none => true
  | some s => s == ""

/-- The dry-run test used at replier.py lines 173, 321 and 428:
`os.environ.get('CODEX_DRY_RUN', '').lower() in ('1','true','yes','on')`. -/
def dryRunEnabled (env : EnvMap) : Bool :=
  ["1", "true", "yes", "on"].contains (pyLower ((envGet env "CODEX_DRY_RUN").getD ""))

/-! ### The effect-tracking run monad -/

/-- A thread comment as returned by the GitHub comments endpoint
(transport C).  The schema fields the program reads are kept: `id` stays
a raw JSON value (it is only compared for equality), the other fields
are the optional strings of the GitHub schema. -/
structure TComment where
  id : JVal
  created_at : Option String
  user_login : Option String
  body : Option String

/-- One outbound request of the program, with the payload parts the
claims talk about. -/
inductive NetCall where
  | threadGet (owner repo number : JVal)
  | responsesPost (model input : String)
  | chatPost (model : String) (messages : List (String × String))
  | commentPost (owner repo number : JVal) (body : String)
  | cliExec (cmd : String)

def NetCall.isCommentPost : NetCall → Bool
  | .commentPost _ _ _ _ => true
  | _ => false

/-- How the process terminated: `sys.exit(n)`, or an uncaught Python
exception (which the interpreter turns into a non-zero exit). -/
inductive ExitKind where
  | code (n : Nat)
  | crash (msg : String)
deriving DecidableEq

/-- Accumulated observable effects of a run. -/
structure Eff where
  calls : List NetCall
  logs : List String
  posted : List String

def Eff.nil : Eff := ⟨[], [], []⟩

def Eff.app (a b : Eff) : Eff := ⟨a.calls ++ b.calls, a.logs ++ b.logs, a.posted ++ b.posted⟩

instance : Append Eff := ⟨Eff.app⟩

@[simp] theorem Eff.append_calls (a b : Eff) : (a ++ b).calls = a.calls ++ b.calls := rfl
@[simp] theorem Eff.append_logs (a b : Eff) : (a ++ b).logs = a.logs ++ b.logs := rfl
@[simp] theorem Eff.append_posted (a b : Eff) : (a ++ b).posted = a.posted ++ b.posted := rfl
@[simp] theorem Eff.nil_calls : Eff.nil.calls = [] := rfl
@[simp] theorem Eff.nil_logs : Eff.nil.logs = [] := rfl
@[simp] theorem Eff.nil_posted : Eff.nil.posted = [] := rfl

/-- The run monad: an `Except ExitKind` value plus accumulated effects. -/
def ERes (α : Type) : Type := Except ExitKind α × Eff

def ePure {α : Type} (a : α) : ERes α := (Except.ok a, Eff.nil)

def eBind {α β : Type} (x : ERes α) (f : α → ERes β) : ERes β :=
  match x with
  | (.ok a, e1) => let y := f a; (y.1, e1 ++ y.2)
  | (.error k, e1) => (.error k, e1)

instance : Monad ERes where
  pure := ePure
  bind := eBind

@[simp] theorem ERes.bind_def {α β : Type} (x : ERes α) (f : α → ERes β) :
    (x >>= f) = eBind x f := rfl

@[simp] theorem ERes.pure_def {α : Type} (a : α) :
    (pure a : ERes α) = (Except.ok a, Eff.nil) := rfl

@[simp] theorem eBind_ok {α β : Type} (a : α) (e : Eff) (f : α → ERes β) :
    eBind (Except.ok a, e) f = ((f a).1, e ++ (f a).2) := rfl

@[simp] theorem eBind_error {α β : Type} (k : ExitKind) (e : Eff) (f : α → ERes β) :
    eBind (Except.error k, e) f = (Except.error k, e) := rfl

def logE (s : String) : ERes Unit := (.ok (), ⟨[], [s], []⟩)

def callE (c : NetCall) : ERes Unit := (.ok (), ⟨[c], [], []⟩)

def postedE (b : String) : ERes Unit := (.ok (), ⟨[], [], [b]⟩)

def exitE {α : Type} (n : Nat) : ERes α := (.error (.code n), Eff.nil)

def crashE {α : Type} (m : String) : ERes α := (.error (.crash m), Eff.nil)

/-- Lift a pure Python computation (which may raise) into the run monad:
an uncaught exception crashes the process. -/
def liftPy {α : Type} (x : Except String α) : ERes α :=
  match x with
  | .ok a => (.ok a, Eff.nil)
  | .error m => (.error (.crash m), Eff.nil)

def pyGetE (v : JVal) (key : String) : ERes JVal := liftPy (pyGet v key)

def pyGetDE (v : JVal) (key : String) (d : JVal) : ERes JVal := liftPy (pyGetD v key d)

def asStrE (v : JVal) : ERes String := liftPy (asStr v)

/-- Final exit status of a completed run (`main` returning normally is
exit 0). -/
def exitOf (r : ERes Unit) : ExitKind :=
  match r.1 with
  | .ok _ => .code 0
  | .error k => k

/-! ### External-world oracle -/

/-- Outcome of one `urllib.request.urlopen` call to an OpenAI endpoint:
a 2xx response whose body parsed as JSON, an `HTTPError` (with the error
body the handler ends up with), or any other exception (transport
failure, timeout, or a JSON decode failure inside the same `try`). -/
inductive HttpOutcome where
  | ok (body : JVal)
  | httpError (code : Int) (errBody : String)
  | exc (msg : String)

/-- Outcome of the comment-creation POST. -/
inductive PostOutcome where
  | ok
  | httpError (code : Int) (errBody : String)
  | exc (msg : String)

/-- Outcome of one `subprocess.run` of a CLI candidate: the call raised
(e.g. a timeout), or ran to completion with an exit status and output. -/
inductive CliOutcome where
  | exc (msg : String)
  | ran (returncode : Int) (stdout stderr : String)

/-- The oracle resolving the program's external effects.  `threadResp`
is the comments GET: `none` models any exception or a non-list JSON body
(both collapse to `[]` in `fetch_thread_comments`); `some items` models
a 2xx JSON list of comment objects of the GitHub schema. -/
structure World where
  threadResp : Option (List TComment)
  responses : HttpOutcome
  chat : HttpOutcome
  cli : Nat → CliOutcome
  post : PostOutcome

/-! ### `fetch_thread_comments` (replier.py lines 40-66) -/

/-- Sort key: `x.get('created_at') or ''`. -/
def cKey (c : TComment) : String := c.created_at.getD ""

def cLE (a b : TComment) : Bool := decide (cKey a ≤ cKey b)

/-- Python `l[-k:]` where `k` is the (possibly non-positive) `limit`
argument: for `k > 0` the last `k` elements, for `k = 0` the whole list
(`l[-0:]` is `l[0:]`), for `k < 0` the tail `l[(-k):]`. -/
def pySliceLast {α : Type} (l : List α) (k : Int) : List α :=
  if k ≤ 0 then l.drop (-k).toNat else l.drop (l.length - k.toNat)

/-- The pure part of `fetch_thread_comments` (lines 58-66): drop the
entries matching a truthy `exclude_comment_id`, sort ascending by
creation timestamp, and apply the `filtered[-limit:]` slice. -/
def threadSelect (items : List TComment) (exclude : JVal) (limit : Int) : List TComment :=
  pySliceLast
    ((items.filter (fun it => !(pyTruthy exclude && JVal.beq it.id exclude))).mergeSort cLE)
    limit

/-- `fetch_thread_comments` (lines 40-66): issue the GET, collapse any
exception or non-list body to `[]`, then select. -/
def fetch_thread_comments (w : World) (owner repo number : JVal) (gh_token : String)
    (exclude : JVal) (limit : Int) : ERes (List TComment) := do
  let _ := gh_token
  callE (.threadGet owner repo number)
  match w.threadResp with
  | none => pure []
  | some items => pure (threadSelect items exclude limit)

/-! ### `extract_reply_text` (replier.py lines 134-169) -/

def placeholderText : String := "(No text response received from the model.)"

/-- The loop at lines 151-153 / 166-168: first content item of type
`output_text` with truthy `text`. -/
def firstOutputText : List JVal → Except String (Option JVal)
  | [] => .ok none
  | c :: rest => do
    let t ← pyGet c "type"
    if JVal.beq t (.jstr "output_text") then do
      let tx ← pyGet c "text"
      if pyTruthy tx then pure (some tx) else firstOutputText rest
    else firstOutputText rest

/-- Lines 142-153: text found below a `response` wrapper, if any. -/
def fromWrapped (resp : JVal) : Except String (Option JVal) := do
  let wrapped := pyOr (dictGet resp "response") (.jobj [])
  match wrapped with
  | .jobj _ =>
    let wrt := dictGet wrapped "output_text"
    if pyTruthy wrt then pure (some wrt)
    else do
      let wout := pyOr (dictGet wrapped "output") (.jarr [])
      match wout with
      | .jarr ws =>
        if ws.isEmpty then pure none
        else do
          let first ← pyIndex0 wout
          let content0 ← pyGet (pyOr first (.jobj [])) "content"
          let content := pyOr content0 (.jarr [])
          match content with
          | .jarr cs => firstOutputText cs
          | _ => pure none
      | _ => pure none
  | _ => pure none

/-- Lines 161-169: legacy `output` blocks, then the placeholder. -/
def fromOutputBlocks (resp : JVal) : Except String JVal := do
  let output := pyOr (dictGet resp "output") (.jarr [])
  if pyTruthy output then do
    let o0 ← pyIndex0 output
    let content0 ← pyGet (pyOr o0 (.jobj [])) "content"
    let content := pyOr content0 (.jarr [])
    match content with
    | .jarr cs => do
      let r ← firstOutputText cs
      match r with
      | some t => pure t
      | none => pure (.jstr placeholderText)
    | _ => pure (.jstr placeholderText)
  else pure (.jstr placeholderText)

/-- Lines 154-169: chat-shape `choices`, then output blocks. -/
def fromChoices (resp : JVal) : Except String JVal := do
  let choices := pyOr (dictGet resp "choices") (.jarr [])
  if pyTruthy choices then do
    let c0 ← pyIndex0 choices
    let msg0 ← pyGet (pyOr c0 (.jobj [])) "message"
    let contentRaw ← pyGet (pyOr msg0 (.jobj [])) "content"
    let cs ← asStr (pyOr contentRaw (.jstr ""))
    let content := pyStrip cs
    if content != "" then pure (.jstr content) else fromOutputBlocks resp
  else fromOutputBlocks resp

/-- `extract_reply_text` (lines 134-169).  The result is the JSON value
the Python function returns; exceptions are those Python would raise. -/
def extract_reply_text (resp : JVal) : Except String JVal :=
  match resp with
  | .jobj _ =>
    let rt := dictGet resp "output_text"
    if pyTruthy rt then .ok rt
    else do
      let fw ← fromWrapped resp
      match fw with
      | some t => pure t
      | none => fromChoices resp
  | _ => .ok (.jstr placeholderText)

/-! ### `call_openai` (replier.py lines 172-263) -/

/-- The guard at line 207 / 257: `isinstance(x, dict) and x.get('error')`. -/
def errField (v : JVal) : JVal :=
  match v with
  | .jobj _ => dictGet v "error"
  | _ => .null

/-- Lines 208-209 / 258: `err.get('message') or str(err)` rendered by
the f-string. -/
def errMessage (err : JVal) : Except String String := do
  let m ← pyGet err "message"
  if pyTruthy m then pure (pyStr m) else pure (pyStr err)

/-- The usable-text test at lines 212-213:
`if text and text.strip() and text.strip() != placeholder: return text`. -/
def textDecision (text : JVal) : Except String (Option String) :=
  if pyTruthy text then do
    let s ← asStr text
    if pyStrip s != "" && pyStrip s != placeholderText then pure (some s) else pure none
  else pure none

/-- The message list of the chat payload (lines 224-226). -/
def chatMsgs (system_for_chat chat_user_content : Option String) (prompt : String) :
    List (String × String) :=
  (match system_for_chat with
   | some s => if s != "" then [("system", s)] else []
   | none => []) ++
  [("user",
    match chat_user_content with
    | some c => if c != "" then c else prompt
    | none => prompt)]

/-- Lines 260-263, inside the `try`: the first choice's stripped message
content; any exception is caught by the caller. -/
def chatChoiceContent (chat_json : JVal) : Except String String := do
  let cs ← pyGet chat_json "choices"
  let c0 ← pyIndex0 (pyOr cs (.jarr [.jobj []]))
  let m ← pyGetD c0 "message" (.jobj [])
  let c ← pyGetD m "content" (.jstr "")
  let s ← asStr c
  pure (pyStrip s)

/-- Lines 260-263 with the surrounding `try/except` and the trailing
`or placeholder`. -/
def chatExtract (chat_json : JVal) : String :=
  match chatChoiceContent chat_json with
  | .ok s => if s != "" then s else placeholderText
  | .error _ => placeholderText

def chatFallbackDisabled (env : EnvMap) : Bool :=
  ["1", "true", "yes", "on"].contains (pyLower ((envGet env "CODEX_DISABLE_CHAT_FALLBACK").getD ""))

def chatFallbackModel (env : EnvMap) : String :=
  (envGet env "CODEX_CHAT_FALLBACK_MODEL").getD "gpt-4o-mini"

/-- Python `s.startswith(p)` (character-prefix test). -/
def pyStartsWith (s p : String) : Bool := p.data.isPrefixOf s.data

/-- The o*-family test at line 218. -/
def reservedFamily (model : String) : Bool :=
  ["o1", "o2", "o3", "o4"].any (fun p => pyStartsWith model p)

/-- `call_openai` (lines 172-263). -/
def call_openai (env : EnvMap) (w : World) (prompt model openai_key : String)
    (system_for_chat chat_user_content : Option String) : ERes String := do
  let _ := openai_key
  if dryRunEnabled env then
    pure ("(dry-run) prompt: " ++ prompt ++ " | model: " ++ model)
  else do
    logE "::group::Calling OpenAI"
    callE (.responsesPost model prompt)
    match w.responses with
    | .httpError code errBody => do
      logE "::endgroup::"
      logE ("::error title=Codex Replier::OpenAI /v1/responses failed " ++ toString code ++
        ": " ++ strTake errBody 800)
      exitE 1
    | .exc m => do
      logE "::endgroup::"
      logE ("::error title=Codex Replier::OpenAI call failed: " ++ m)
      exitE 1
    | .ok resp_json => do
      logE "::endgroup::"
      if pyTruthy (errField resp_json) then do
        let msg ← liftPy (errMessage (dictGet resp_json "error"))
        pure ("(OpenAI error) " ++ msg)
      else do
        let text ← liftPy (extract_reply_text resp_json)
        let dec ← liftPy (textDecision text)
        match dec with
        | some s => pure s
        | none => do
          let chat_model := if reservedFamily model then chatFallbackModel env else model
          if chatFallbackDisabled env then pure placeholderText
          else do
            logE "::group::Calling OpenAI (chat.fallback)"
            callE (.chatPost chat_model (chatMsgs system_for_chat chat_user_content prompt))
            match w.chat with
            | .httpError code errBody => do
              logE "::endgroup::"
              logE ("::notice title=Codex Replier::Chat fallback failed " ++ toString code ++
                ": " ++ strTake errBody 800)
              pure ("(OpenAI error) chat fallback " ++ toString code ++ ": " ++ strTake errBody 200)
            | .exc m => do
              logE "::endgroup::"
              logE ("::notice title=Codex Replier::Chat fallback failed: " ++ m)
              pure placeholderText
            | .ok chat_json => do
              logE "::endgroup::"
              if pyTruthy (errField chat_json) then do
                let msg ← liftPy (errMessage (dictGet chat_json "error"))
                pure ("(OpenAI error) " ++ msg)
              else pure (chatExtract chat_json)

/-! ### `try_cli` (replier.py lines 266-317) -/

/-- `shquote` (lines 266-267). -/
def shquote (s : String) : String := "'" ++ String.replace s "'" "'\\''" ++ "'"

/-- The candidate template list (lines 274-286): an explicit truthy
override, else the stdin-piping form followed by the positional form. -/
def cliTemplates (env : EnvMap) : List String :=
  let ov := (envGet env "CODEX_CLI_TEMPLATE").getD ""
  if ov != "" then [ov]
  else ["printf %s {prompt} | npx -y @openai/codex@latest --",
        "npx -y @openai/codex@latest -- {prompt}"]

def cliDisabled (env : EnvMap) : Bool :=
  ["1", "true", "yes", "on"].contains (pyLower ((envGet env "CODEX_CLI_DISABLE").getD ""))

/-- The candidate loop (lines 289-317); `i` indexes the oracle outcome of
the `i`-th subprocess run. -/
def tryCliLoop (w : World) (model prompt : String) : List String → Nat → ERes (Option String)
  | [], _ => do
    logE "::notice title=Codex Replier::All CLI patterns failed; falling back to API"
    pure none
  | tmpl :: rest, i => do
    let cmd := String.replace (String.replace tmpl "{model}" (shquote model)) "{prompt}"
      (shquote prompt)
    logE ("::group::Trying CLI: " ++ tmpl)
    callE (.cliExec cmd)
    match w.cli i with
    | .exc m => do
      logE "::endgroup::"
      logE ("::notice title=Codex Replier::CLI attempt failed: " ++ m)
      tryCliLoop w model prompt rest (i + 1)
    | .ran rc out err => do
      let stdout := pyStrip out
      let stderr := pyStrip err
      if rc != 0 then do
        logE "::endgroup::"
        logE ("::notice title=Codex Replier::CLI exited with " ++ toString rc ++ ": " ++
          strTake stderr 400)
        tryCliLoop w model prompt rest (i + 1)
      else do
        logE "::endgroup::"
        if stdout == "" then do
          logE "::notice title=Codex Replier::CLI produced no output; trying next pattern"
          tryCliLoop w model prompt rest (i + 1)
        else pure (some stdout)

/-- `try_cli` (lines 270-317). -/
def try_cli (env : EnvMap) (w : World) (prompt model : String) : ERes (Option String) := do
  if cliDisabled env then do
    logE "::notice title=Codex Replier::CLI disabled by CODEX_CLI_DISABLE"
    pure none
  else tryCliLoop w model prompt (cliTemplates env) 0

/-! ### `post_comment` (replier.py lines 320-355) -/

/-- The dry-run line printed at replier.py line 322 (the source f-string
has a literal `$` before the interpolated number). -/
def wouldPostLog (owner repo_name number : JVal) (body_md : String) : String :=
  "::notice title=Codex Replier(DRY-RUN)::Would post to " ++ pyStr owner ++ "/" ++
    pyStr repo_name ++ "#$" ++ pyStr number ++ ":\n" ++ body_md

/-- `post_comment` (lines 320-355).  The body handed to this step is
recorded in `Eff.posted` on entry. -/
def post_comment (env : EnvMap) (w : World) (owner repo_name number : JVal)
    (body_md : String) (gh_token : String) : ERes Unit := do
  let _ := gh_token
  postedE body_md
  if dryRunEnabled env then
    logE (wouldPostLog owner repo_name number body_md)
  else do
    logE "::group::Posting reply to GitHub"
    callE (.commentPost owner repo_name number body_md)
    match w.post with
    | .httpError code errBody => do
      logE "::endgroup::"
      logE ("::error title=Codex Replier::Failed to post comment (" ++ toString code ++ "): " ++
        strTake errBody 800 ++
        "\nIf this is 403, ensure the workflow/job grants: contents: read, issues: write, pull-requests: write. Also avoid fork-origin events with restricted tokens when testing.")
      exitE 1
    | .exc m => do
      logE "::endgroup::"
      logE ("::error title=Codex Replier::Failed to post comment: " ++ m ++
        "\nIf this is HTTP 403, ensure the caller workflow has permissions: issues: write and pull-requests: write.")
      exitE 1
    | .ok => do
      logE "::endgroup::"
      logE "::notice title=Codex Replier::Reply posted successfully"

/-! ### `build_prompt` (replier.py lines 69-131) -/

/-- `build_prompt` (lines 69-131), returning
`(responses_input, system_for_chat, chat_user_content)`.  The source
collects `blocks` and then splits off `blocks[-1]`; here the always-last
user block is kept separate directly. -/
def build_prompt (w : World) (event : JVal) (owner repo_name number : JVal)
    (user_request model : String) (include_metadata include_thread : Bool)
    (max_context_chars max_thread_comments : Int)
    (system_prompt gh_token : String) : ERes (String × Option String × String) := do
  let sys_msg := if system_prompt != "" then pyStrip system_prompt else ""
  let metaBlocks ← (if include_metadata then do
    let repo_full ← (if pyTruthy owner && pyTruthy repo_name then
        pure (JVal.jstr (pyStr owner ++ "/" ++ pyStr repo_name))
      else do
        let r ← pyGetDE event "repository" (.jobj [])
        let fn ← pyGetE r "full_name"
        pure (pyOr fn (.jstr "")))
    let issue0 ← pyGetE event "issue"
    let issue := pyOr issue0 (.jobj [])
    let title0 ← pyGetE issue "title"
    let title := pyOr title0 (.jstr "")
    let url0 ← pyGetE issue "html_url"
    let html_url := pyOr url0 (.jstr "")
    let ispr ← pyGetE issue "pull_request"
    let kind := if pyTruthy ispr then "PR" else "Issue"
    let meta := ["Repo: " ++ pyStr repo_full,
                 pyStrip (kind ++ ": #" ++ pyStr number ++ " " ++ pyStr title)] ++
      (if pyTruthy html_url then ["URL: " ++ pyStr html_url] else []) ++
      ["Model: " ++ model]
    pure ["[Context]\n" ++ String.intercalate "\n" meta]
  else pure ([] : List String))
  let threadBlocks ← (if include_thread && gh_token != "" && pyTruthy owner &&
      pyTruthy repo_name && pyTruthy number then do
    let cobj ← pyGetE event "comment"
    let exclude_id ← pyGetE (pyOr cobj (.jobj [])) "id"
    let comments ← fetch_thread_comments w owner repo_name number gh_token exclude_id
      max_thread_comments
    if comments.isEmpty then pure ([] : List String)
    else do
      let lines := comments.map (fun c =>
        let author := orDflt c.user_login "unknown"
        let body := safe_trim (some (pyStrip (String.replace (orDflt c.body "") "\r\n" "\n"))) 1200
        "- " ++ author ++ ": " ++ body)
      pure ["[Recent Thread]\n" ++ String.intercalate "\n" lines]
  else pure ([] : List String))
  let context_blocks := metaBlocks ++ threadBlocks
  let user_block := "[User Request]\n" ++ user_request
  let context_text := String.intercalate "\n\n" context_blocks
  let context_text := if (context_text.length : Int) > max_context_chars then
      safe_trim (some context_text) max_context_chars
    else context_text
  let full_no_sys := pyStrip (context_text ++ (if context_text != "" then "\n\n" else "") ++
    user_block)
  let responses_input := if sys_msg != "" then "[System]\n" ++ sys_msg ++ "\n\n" ++ full_no_sys
    else full_no_sys
  pure (responses_input, (if sys_msg != "" then some sys_msg else none), full_no_sys)

/-! ### `main` (replier.py lines 358-447) -/

/-- `e` (lines 11-15): an environment read, with the debug line printed
when the variable is missing. -/
def eE (env : EnvMap) (name : String) : ERes (Option String) :=
  (.ok (envGet env name),
   ⟨[], match envGet env name with
        | none => ["::debug::Missing env " ++ name]
        | some _ => [], []⟩)

/-- `repo.split('/', 1)` when `'/'` occurs in `repo`. -/
def splitOnceSlash (s : String) : String × String :=
  (String.mk (s.data.takeWhile (fun c => c != '/')),
   String.mk ((s.data.dropWhile (fun c => c != '/')).drop 1))

/-- The event fields resolved at lines 361-376. -/
structure Ctx where
  action : JVal
  comment : JVal
  commenter : JVal
  number : JVal
  owner : JVal
  repo_name : JVal

/-- Lines 361-376: field extraction from the loaded event, with Python's
lazy `or`-chains and its crashes on unexpectedly-shaped values. -/
def readCtx (event : JVal) : ERes Ctx := do
  let action ← pyGetE event "action"
  let cobj0 ← pyGetE event "comment"
  let comment_obj := pyOr cobj0 (.jobj [])
  let body0 ← pyGetE comment_obj "body"
  let comment := pyOr body0 (.jstr "")
  let u0 ← pyGetE comment_obj "user"
  let login0 ← pyGetE (pyOr u0 (.jobj [])) "login"
  let commenter := pyOr login0 (.jstr "")
  let issue0 ← pyGetE event "issue"
  let issue := pyOr issue0 (.jobj [])
  let n1 ← pyGetE issue "number"
  let number ← (if pyTruthy n1 then pure n1 else do
    let i2 ← pyGetE event "issue"
    let n2 ← pyGetE (pyOr i2 (.jobj [])) "number"
    if pyTruthy n2 then pure n2 else do
      let p0 ← pyGetE event "pull_request"
      pyGetE (pyOr p0 (.jobj [])) "number")
  let r0 ← pyGetE event "repository"
  let fn ← pyGetE (pyOr r0 (.jobj [])) "full_name"
  let repoS ← asStrE (pyOr fn (.jstr ""))
  if repoS.data.contains '/' then
    pure ⟨action, comment, commenter, number, .jstr (splitOnceSlash repoS).1,
      .jstr (splitOnceSlash repoS).2⟩
  else do
    let ra ← pyGetE event "repository"
    let ow ← pyGetDE (pyOr ra (.jobj [])) "owner" (.jobj [])
    let ologin ← pyGetDE ow "login" (.jstr "")
    let rb ← pyGetE event "repository"
    let rn ← pyGetDE (pyOr rb (.jobj [])) "name" (.jstr "")
    pure ⟨action, comment, commenter, number, ologin, rn⟩

/-- Lines 397-404: the user request derived from the comment once the
action and prefix checks passed: `comment.strip()[len(prefix):].lstrip()`. -/
def derived_request (comment pfx : String) : String :=
  pyLstrip ((pyStrip comment).drop pfx.length)

/-- Lines 427-433: obtain the reply text — under dry-run go straight to
`call_openai` (which short-circuits to the dry-run string), otherwise try
the CLI first and fall back to the API when its result is falsy. -/
def resolveReply (env : EnvMap) (w : World) (ri model openai_key : String)
    (sfc : Option String) (cuc : String) : ERes String :=
  if dryRunEnabled env then call_openai env w ri model openai_key sfc (some cuc)
  else do
    let r ← try_cli env w ri model
    if optFalsyStr r then call_openai env w ri model openai_key sfc (some cuc)
    else pure (r.getD "")

/-- `main` (lines 358-447).  `load_event` (lines 18-24) is the payload
file read; its parsed result is the `event` argument here (the claims
quantify over loaded events). -/
def mainRun (env : EnvMap) (event : JVal) (w : World) : ERes Unit := do
  let ctx ← readCtx event
  let tp ← eE env "INPUT_TRIGGER_PREFIX"
  let pfxV := pyStrip (orDflt tp "/codex")
  let mv ← eE env "INPUT_MODEL"
  let model := pyStrip (orDflt mv "o4-mini")
  let mav ← eE env "INPUT_MENTION_AUTHOR"
  let mention := boolish (some (orDflt mav "true")) true
  let spv ← eE env "INPUT_SYSTEM_PROMPT"
  let system_prompt := orDflt spv ""
  let imv ← eE env "INPUT_INCLUDE_METADATA"
  let include_metadata := boolish (some (orDflt imv "true")) true
  let itv ← eE env "INPUT_INCLUDE_THREAD_CONTEXT"
  let include_thread := boolish (some (orDflt itv "true")) true
  let mcv ← eE env "INPUT_MAX_CONTEXT_CHARS"
  let max_context_chars := (pyInt (orDflt mcv "8000")).getD 8000
  let mtv ← eE env "INPUT_MAX_THREAD_COMMENTS"
  let max_thread_comments := (pyInt (orDflt mtv "5")).getD 5
  if !(JVal.beq ctx.action (.jstr "created")) then do
    logE ("::notice title=Codex Replier::Event action '" ++ pyStr ctx.action ++
      "' not 'created'; skipping")
    exitE 0
  else do
    let commentS ← asStrE ctx.comment
    if !(pyStartsWith (pyStrip commentS) pfxV) then do
      logE ("::notice title=Codex Replier::Comment does not start with prefix '" ++ pfxV ++
        "'; skipping")
      exitE 0
    else do
      let raw_request := derived_request commentS pfxV
      if raw_request == "" then do
        logE "::warning title=Codex Replier::Empty prompt after prefix; nothing to do"
        exitE 0
      else do
        let okv ← eE env "OPENAI_API_KEY"
        if optFalsyStr okv then do
          logE "::error title=Codex Replier::Missing OPENAI_API_KEY secret"
          exitE 1
        else do
          let openai_key := orDflt okv ""
          let ghv ← eE env "GITHUB_TOKEN"
          let bp ← build_prompt w event ctx.owner ctx.repo_name ctx.number raw_request model
            include_metadata include_thread max_context_chars max_thread_comments system_prompt
            (orDflt ghv "")
          let reply_text ← resolveReply env w bp.1 model openai_key bp.2.1 bp.2.2
          let mentionPfx := if mention && pyTruthy ctx.commenter then
              "@" ++ pyStr ctx.commenter ++ " "
            else ""
          let body_md := mentionPfx ++ reply_text
          let gh2 ← eE env "GITHUB_TOKEN"
          if optFalsyStr gh2 then do
            logE "::error title=Codex Replier::Missing GITHUB_TOKEN"
            exitE 1
          else do
            if !(pyTruthy ctx.owner && pyTruthy ctx.repo_name && pyTruthy ctx.number) then do
              logE "::error title=Codex Replier::Cannot resolve repository/issue context to post comment"
              exitE 1
            else
              post_comment env w ctx.owner ctx.repo_name ctx.number body_md (orDflt gh2 "")

/-! ### Structured events of the GitHub `issue_comment` schema -/

def optStrJ (o : Option String) : JVal :=
  match o with
  | some s => .jstr s
  | none => .null

def optIntJ (o : Option Int) : JVal :=
  match o with
  | some n => .jnum n
  | none => .null

/-- An event of the shape the GitHub `issue_comment` payload has: every
field the program reads is either absent (`none`, encoded as JSON null —
indistinguishable through the program's `or`-chains and truthiness
tests) or of its schema type. -/
structure GEvent where
  action : Option String
  commentBody : Option String
  commentUserLogin : Option String
  commentId : Option Int
  issueNumber : Option Int
  issueTitle : Option String
  issueHtmlUrl : Option String
  issueIsPR : Bool
  prNumber : Option Int
  repoFullName : Option String
  repoOwnerLogin : Option String
  repoName : Option String

def GEvent.toJVal (g : GEvent) : JVal :=
  .jobj [
    ("action", optStrJ g.action),
    ("comment", .jobj [("body", optStrJ g.commentBody),
                       ("user", .jobj [("login", optStrJ g.commentUserLogin)]),
                       ("id", optIntJ g.commentId)]),
    ("issue", .jobj [("number", optIntJ g.issueNumber),
                     ("title", optStrJ g.issueTitle),
                     ("html_url", optStrJ g.issueHtmlUrl),
                     ("pull_request", if g.issueIsPR then .jobj [("url", .jstr "pr")] else .null)]),
    ("pull_request", .jobj [("number", optIntJ g.prNumber)]),
    ("repository", .jobj [("full_name", optStrJ g.repoFullName),
                          ("owner", .jobj [("login", optStrJ g.repoOwnerLogin)]),
                          ("name", optStrJ g.repoName)])]

theorem Eff.append_def (a b : Eff) : a ++ b = Eff.app a b := rfl

@[simp] theorem Eff.append_nil (a : Eff) : a ++ Eff.nil = a := by
  cases a with
  | mk c l p => simp [Eff.append_def, Eff.app, Eff.nil]

@[simp] theorem Eff.nil_append (a : Eff) : Eff.nil ++ a = a := by
  cases a with
  | mk c l p => simp [Eff.append_def, Eff.app, Eff.nil]

@[simp] theorem pyOr_optStrJ_empty (o : Option String) :
    pyOr (optStrJ o) (.jstr "") = .jstr (o.getD "") := by
  cases o with
  | none => rfl
  | some s =>
    by_cases h : s = "" <;> simp [pyOr, pyTruthy, optStrJ, h]

/-- The context values `main` resolves from a schema-shaped event. -/
def ctxOf (g : GEvent) : Ctx :=
  let repoS := g.repoFullName.getD ""
  { action := optStrJ g.action
    comment := .jstr (g.commentBody.getD "")
    commenter := .jstr (g.commentUserLogin.getD "")
    number := if pyTruthy (optIntJ g.issueNumber) then optIntJ g.issueNumber
      else optIntJ g.prNumber
    owner := if repoS.data.contains '/' then .jstr (splitOnceSlash repoS).1
      else optStrJ g.repoOwnerLogin
    repo_name := if repoS.data.contains '/' then .jstr (splitOnceSlash repoS).2
      else optStrJ g.repoName }

@[simp] theorem pyOr_jobj_cons (p : String × JVal) (l : List (String × JVal)) (d : JVal) :
    pyOr (.jobj (p :: l)) d = .jobj (p :: l) := by
  simp [pyOr, pyTruthy]

set_option maxRecDepth 40000 in
theorem readCtx_toJVal (g : GEvent) :
    readCtx (GEvent.toJVal g) = (.ok (ctxOf g), Eff.nil) := by
  by_cases hn : pyTruthy (optIntJ g.issueNumber) <;>
    by_cases hr : (g.repoFullName.getD "").data.contains '/' <;>
      simp [readCtx, GEvent.toJVal, ctxOf, pyGetE, pyGetDE, asStrE, pyGet, pyGetD, dictGet,
        lookupKV, liftPy, eBind, List.foldl, hn, hr, asStr] <;>
      simp_all

/-! ### Claim theorems -/

/-- C5: for the configured prefix "/codex" and the comment body
"/codex  explain this", the trimmed comment passes the prefix check and
the derived user request text (surrounding whitespace trimmed, prefix
removed, following whitespace left-stripped) is exactly "explain this". -/
theorem claim_C5 :
    pyStartsWith (pyStrip "/codex  explain this") "/codex" = true ∧
    derived_request "/codex  explain this" "/codex" = "explain this" := by
  constructor <;> decide

/-- C6: `safe_trim` at the thread-body limit 1200: a string longer than
1200 characters is cut to exactly 1200 characters ending in the ellipsis
character; a string of at most 1200 characters is returned unchanged. -/
theorem claim_C6 (s : String) :
    (1200 < s.length → (safe_trim (some s) 1200).length = 1200 ∧
      (safe_trim (some s) 1200).data.getLast? = some '…') ∧
    (s.length ≤ 1200 → safe_trim (some s) 1200 = s) := by
  constructor
  · intro h
    have hgt : ¬ ((s.length : Int) ≤ (1200 : Int)) := by exact_mod_cast Nat.not_le.mpr h
    have hlen : s.data.length = s.length := rfl
    have e1 : safe_trim (some s) 1200 = String.mk (s.data.take 1199 ++ ['…']) := by
      have h2 : (max (0 : Int) (1200 - 1)).toNat = 1199 := by decide
      simp [safe_trim, hgt, h2]
    rw [e1]
    constructor
    · rw [String.length_mk]
      have hd : s.data.length = s.length := rfl
      simp [List.length_take]
      omega
    · simp
  · intro h
    have hle : ((s.length : Int) ≤ (1200 : Int)) := by exact_mod_cast h
    simp [safe_trim, hle]

/-- C6 witness: a 1201-character body is cut to 1200 characters ending in
the ellipsis, at the concrete input `'a' * 1201`. -/
theorem claim_C6_witness :
    (safe_trim (some (String.mk (List.replicate 1201 'a'))) 1200).length = 1200 ∧
    (safe_trim (some (String.mk (List.replicate 1201 'a'))) 1200).data.getLast? = some '…' :=
  (claim_C6 (String.mk (List.replicate 1201 'a'))).1
    (by rw [String.length_mk, List.length_replicate]; norm_num)

theorem cLE_trans : ∀ a b c : TComment, cLE a b = true → cLE b c = true → cLE a c = true := by
  intro a b c h1 h2
  simp only [cLE, decide_eq_true_eq] at *
  exact le_trans h1 h2

theorem cLE_total : ∀ a b : TComment, (cLE a b || cLE b a) = true := by
  intro a b
  simp only [cLE, Bool.or_eq_true, decide_eq_true_eq]
  exact le_total _ _

theorem pySliceLast_sublist {α : Type} (l : List α) (k : Int) :
    (pySliceLast l k).Sublist l := by
  unfold pySliceLast
  split <;> exact List.drop_sublist _ _

/-- C3 (amended): when `max_thread_comments ≥ 1, the retained
thread-context entries are sorted ascending by creation timestamp and
number at most `max_thread_comments`; and whenever the triggering
comment's identifier is truthy (present and non-zero), no retained entry
carries that identifier.  (As literally stated the claim fails: the code
skips the exclusion when the identifier is falsy, and `filtered[-limit:]`
with `limit = 0` keeps the whole list — see the counterexample.) -/
theorem claim_C3_amended (items : List TComment) (exclude : JVal) (limit : Int)
    (hlim : 1 ≤ limit) :
    (pyTruthy exclude = true → ∀ c ∈ threadSelect items exclude limit, c.id ≠ exclude) ∧
    List.Pairwise (fun a b => cKey a ≤ cKey b) (threadSelect items exclude limit) ∧
    ((threadSelect items exclude limit).length : Int) ≤ limit := by
  refine ⟨?_, ?_, ?_⟩
  · intro htr c hc heq
    have h1 : c ∈ (items.filter
        (fun it => !(pyTruthy exclude && JVal.beq it.id exclude))).mergeSort cLE :=
      (pySliceLast_sublist _ _).mem hc
    have h2 : c ∈ items.filter (fun it => !(pyTruthy exclude && JVal.beq it.id exclude)) :=
      (List.mergeSort_perm _ cLE).mem_iff.mp h1
    have h3 := (List.mem_filter.mp h2).2
    rw [htr, heq, JVal.beq_refl] at h3
    simp at h3
  · have hs : List.Pairwise (fun a b => cLE a b = true)
        ((items.filter (fun it => !(pyTruthy exclude && JVal.beq it.id exclude))).mergeSort cLE) :=
      List.sorted_mergeSort cLE_trans cLE_total _
    have hsl := List.Pairwise.sublist (pySliceLast_sublist
      ((items.filter (fun it => !(pyTruthy exclude && JVal.beq it.id exclude))).mergeSort cLE)
      limit) hs
    exact hsl.imp (fun h => by simpa [cLE] using h)
  · unfold threadSelect pySliceLast
    have hnot : ¬ (limit ≤ 0) := by omega
    simp only [hnot, if_false, List.length_drop]
    omega

/-- C3 witness: the amended claim's length bound instantiated at a
two-comment list with a truthy excluded identifier and limit 1. -/
theorem claim_C3_witness :
    ((threadSelect [⟨.jnum 7, some "b", some "u", some "x"⟩,
        ⟨.jnum 8, some "a", some "v", some "y"⟩] (.jnum 7) 1).length : Int) ≤ 1 :=
  (claim_C3_amended [⟨.jnum 7, some "b", some "u", some "x"⟩,
    ⟨.jnum 8, some "a", some "v", some "y"⟩] (.jnum 7) 1 (by norm_num)).2.2

/-- C3 counterexample: with `max_thread_comments = 0` and a triggering
comment of identifier 0, `threadSelect` keeps the triggering comment
itself (the truthiness guard skips the exclusion and `[-0:]` is the full
list), so the retained list both contains the triggering identifier and
exceeds the limit. -/
theorem claim_C3_counterexample :
    ¬ ((∀ c ∈ threadSelect [⟨.jnum 0, some "a", some "u", some "x"⟩] (.jnum 0) 0,
          c.id ≠ .jnum 0) ∧
        List.Pairwise (fun a b => cKey a ≤ cKey b)
          (threadSelect [⟨.jnum 0, some "a", some "u", some "x"⟩] (.jnum 0) 0) ∧
        ((threadSelect [⟨.jnum 0, some "a", some "u", some "x"⟩] (.jnum 0) 0).length : Int) ≤ 0) := by
  intro h
  have hsel : threadSelect [⟨.jnum 0, some "a", some "u", some "x"⟩] (.jnum 0) 0 =
      [⟨.jnum 0, some "a", some "u", some "x"⟩] := by
    simp [threadSelect, pySliceLast, pyTruthy, List.mergeSort_singleton]
  exact h.1 ⟨.jnum 0, some "a", some "u", some "x"⟩ (by rw [hsel]; exact List.mem_singleton_self _) rfl

/-- C2: once the HTTP dispatch stages are reached (dry-run off), a
transport-level or HTTP failure of the Responses endpoint (stage 2)
terminates the process with exit code 1, whereas the same failures of
the Chat endpoint (stage 3) do not terminate the process: they yield the
synthesized error reply (the "(OpenAI error) chat fallback …" line for
an HTTP error, the no-text placeholder line for a transport error). -/
theorem claim_C2 (env : EnvMap) (w : World) (prompt model key : String)
    (sfc cuc : Option String) (hdr : dryRunEnabled env = false) :
    (∀ code body, w.responses = .httpError code body →
      (call_openai env w prompt model key sfc cuc).1 = .error (.code 1)) ∧
    (∀ m, w.responses = .exc m →
      (call_openai env w prompt model key sfc cuc).1 = .error (.code 1)) ∧
    (∀ rj t code body, w.responses = .ok rj → pyTruthy (errField rj) = false →
      extract_reply_text rj = .ok t → textDecision t = .ok none →
      chatFallbackDisabled env = false → w.chat = .httpError code body →
      (call_openai env w prompt model key sfc cuc).1 =
        .ok ("(OpenAI error) chat fallback " ++ toString code ++ ": " ++ strTake body 200)) ∧
    (∀ rj t m, w.responses = .ok rj → pyTruthy (errField rj) = false →
      extract_reply_text rj = .ok t → textDecision t = .ok none →
      chatFallbackDisabled env = false → w.chat = .exc m →
      (call_openai env w prompt model key sfc cuc).1 = .ok placeholderText) := by
  refine ⟨?_, ?_, ?_, ?_⟩
  · intro code body hw
    simp [call_openai, hdr, hw, eBind, logE, callE, exitE, liftPy]
  · intro m hw
    simp [call_openai, hdr, hw, eBind, logE, callE, exitE, liftPy]
  · intro rj t code body hw he hx ht hcf hc
    simp [call_openai, hdr, hw, he, hx, ht, hcf, hc, eBind, logE, callE, exitE, liftPy]
  · intro rj t m hw he hx ht hcf hc
    simp [call_openai, hdr, hw, he, hx, ht, hcf, hc, eBind, logE, callE, exitE, liftPy]

def emptyEnv : EnvMap := []

def wHttpErr : World :=
  ⟨none, .httpError 500 "bad gateway", .exc "down", fun _ => .exc "no cli", .ok⟩

/-- C2 witness: the stage-2 HTTP-error part at a concrete world. -/
theorem claim_C2_witness :
    (call_openai emptyEnv wHttpErr "p" "m" "k" none none).1 = .error (.code 1) :=
  (claim_C2 emptyEnv wHttpErr "p" "m" "k" none none (by decide)).1 500 "bad gateway" rfl

/-- C7: when the chat fallback (stage 3) is dispatched, the chat request
carries the configured fallback model whenever the originally requested
model starts with a reserved (completion-only) family prefix, and the
originally requested model otherwise. -/
theorem claim_C7 (env : EnvMap) (w : World) (prompt model key : String)
    (sfc cuc : Option String) (rj t : JVal) (hdr : dryRunEnabled env = false)
    (hw : w.responses = .ok rj) (he : pyTruthy (errField rj) = false)
    (hx : extract_reply_text rj = .ok t) (ht : textDecision t = .ok none)
    (hcf : chatFallbackDisabled env = false) :
    (reservedFamily model = true →
      NetCall.chatPost (chatFallbackModel env) (chatMsgs sfc cuc prompt) ∈
        (call_openai env w prompt model key sfc cuc).2.calls) ∧
    (reservedFamily model = false →
      NetCall.chatPost model (chatMsgs sfc cuc prompt) ∈
        (call_openai env w prompt model key sfc cuc).2.calls) := by
  constructor <;> intro hres <;>
    simp [call_openai, hdr, hw, he, hx, ht, hcf, hres, eBind, logE, callE, exitE, liftPy,
      Eff.append_def, Eff.app]

def wNoText : World :=
  ⟨none, .ok (.jobj []), .httpError 404 "nope", fun _ => .exc "no cli", .ok⟩

/-- C7 witness: requesting the reserved-family model "o4-mini" makes the
chat call use the configured fallback model, at a concrete world whose
stage 2 yields no usable text. -/
theorem claim_C7_witness :
    NetCall.chatPost (chatFallbackModel emptyEnv) (chatMsgs none none "p") ∈
      (call_openai emptyEnv wNoText "p" "o4-mini" "k" none none).2.calls :=
  (claim_C7 emptyEnv wNoText "p" "o4-mini" "k" none none (.jobj []) (.jstr placeholderText)
    (by decide) rfl rfl rfl rfl (by decide)).1 (by decide)

/-- A syntactically valid but unexpectedly shaped loaded event: the
`comment` field is the number 5. -/
def evC8 : JVal := .jobj [("action", .jstr "edited"), ("comment", .jnum 5)]

/-- C8 counterexample: for the loaded event
`{"action": "edited", "comment": 5}` (action not "created") the run does
not exit 0 — `comment_obj.get('body')` raises before the action check and
the process terminates non-zero. -/
theorem claim_C8_counterexample :
    ¬ (exitOf (mainRun emptyEnv evC8 wHttpErr) = .code 0 ∧
        (mainRun emptyEnv evC8 wHttpErr).2.calls = []) := by
  intro h
  have : exitOf (mainRun emptyEnv evC8 wHttpErr) = .crash "AttributeError: no attribute get" :=
    rfl
  rw [this] at h
  exact absurd h.1 (by simp)

set_option maxRecDepth 40000 in
/-- C8 (amended): for every loaded event of the GitHub `issue_comment`
schema shape whose action is not the literal "created", the run makes no
outbound call of any kind and exits 0.  (As literally stated over all
loaded events the claim fails: a structurally unexpected event crashes
the field-extraction prelude before the action check and the process
exits non-zero — see the counterexample.) -/
theorem claim_C8_amended (g : GEvent) (env : EnvMap) (w : World)
    (h : g.action ≠ some "created") :
    exitOf (mainRun env (GEvent.toJVal g) w) = .code 0 ∧
    (mainRun env (GEvent.toJVal g) w).2.calls = [] := by
  have hbeq : JVal.beq (ctxOf g).action (.jstr "created") = false := by
    cases hA : g.action with
    | none => simp [ctxOf, optStrJ, JVal.beq, hA]
    | some s =>
      have hs : s ≠ "created" := fun e => h (by rw [hA, e])
      simp [ctxOf, optStrJ, JVal.beq, hA, hs]
  simp [mainRun, readCtx_toJVal, eE, eBind, hbeq, logE, exitE, exitOf,
    Eff.append_def, Eff.app, Eff.nil]

/-- C8 witness: the amended claim at a concrete event with action
"edited". -/
theorem claim_C8_witness :
    exitOf (mainRun emptyEnv (GEvent.toJVal ⟨some "edited", some "/codex hi", some "alice",
      some 10, some 1, some "t", some "u", false, none, some "o/r", none, none⟩) wHttpErr) =
      .code 0 ∧
    (mainRun emptyEnv (GEvent.toJVal ⟨some "edited", some "/codex hi", some "alice",
      some 10, some 1, some "t", some "u", false, none, some "o/r", none, none⟩) wHttpErr).2.calls =
      [] :=
  claim_C8_amended _ emptyEnv wHttpErr (by simp)

/-! ### Effect invariants of the run's components -/

/-- A "tame" effect: hands nothing to the posting step and issues no
comment-creation POST. -/
def Tame (e : Eff) : Prop := e.posted = [] ∧ ∀ c ∈ e.calls, c.isCommentPost = false

theorem tame_nil : Tame Eff.nil := ⟨rfl, by simp [Eff.nil]⟩

theorem tame_append {e1 e2 : Eff} (h1 : Tame e1) (h2 : Tame e2) : Tame (e1 ++ e2) := by
  refine ⟨?_, ?_⟩
  · simp [Eff.append_def, Eff.app, h1.1, h2.1]
  · intro c hc
    rw [Eff.append_def] at hc
    rcases List.mem_append.mp hc with h | h
    · exact h1.2 c h
    · exact h2.2 c h

theorem tame_bind {α β : Type} {x : ERes α} {f : α → ERes β}
    (hx : Tame x.2) (hf : ∀ a, Tame (f a).2) : Tame (eBind x f).2 := by
  rcases x with ⟨r, e⟩
  cases r with
  | ok a => exact tame_append hx (hf a)
  | error k => exact hx

theorem tame_liftPy {α : Type} (x : Except String α) : Tame (liftPy x).2 := by
  cases x <;> exact tame_nil

theorem tame_logE (s : String) : Tame (logE s).2 := ⟨rfl, by simp [logE]⟩

theorem tame_eE (env : EnvMap) (n : String) : Tame (eE env n).2 := ⟨rfl, by simp [eE]⟩

theorem tame_callE {c : NetCall} (h : c.isCommentPost = false) : Tame (callE c).2 :=
  ⟨rfl, by simp [callE, h]⟩

theorem readCtx_tame (event : JVal) : Tame (readCtx event).2 := by
  unfold readCtx
  repeat' first
    | apply tame_bind
    | intro a
    | split
    | exact tame_nil
    | exact tame_liftPy _

theorem tryCliLoop_tame (w : World) (model prompt : String) :
    ∀ (ts : List String) (i : Nat), Tame (tryCliLoop w model prompt ts i).2 := by
  intro ts
  induction ts with
  | nil =>
    intro i
    unfold tryCliLoop
    repeat' first
      | apply tame_bind
      | intro a
      | split
      | exact tame_nil
      | exact tame_logE _
  | cons t rest ih =>
    intro i
    unfold tryCliLoop
    repeat' first
      | apply tame_bind
      | intro a
      | split
      | exact tame_nil
      | exact tame_logE _
      | exact tame_callE rfl
      | exact ih _

theorem try_cli_tame (env : EnvMap) (w : World) (prompt model : String) :
    Tame (try_cli env w prompt model).2 := by
  unfold try_cli
  repeat' first
    | apply tame_bind
    | intro a
    | split
    | exact tame_nil
    | exact tame_logE _
    | exact tryCliLoop_tame w model prompt _ _

theorem call_openai_tame (env : EnvMap) (w : World) (p m k : String)
    (sfc cuc : Option String) : Tame (call_openai env w p m k sfc cuc).2 := by
  unfold call_openai
  repeat' first
    | apply tame_bind
    | intro a
    | split
    | exact tame_nil
    | exact tame_liftPy _
    | exact tame_logE _
    | exact tame_callE rfl

theorem build_prompt_tame (w : World) (event o rn num : JVal) (ur model : String)
    (im ith : Bool) (mcc mtc : Int) (sp gt : String) :
    Tame (build_prompt w event o rn num ur model im ith mcc mtc sp gt).2 := by
  unfold build_prompt fetch_thread_comments
  repeat' first
    | apply tame_bind
    | intro a
    | split
    | exact tame_nil
    | exact tame_liftPy _
    | exact tame_callE rfl

theorem resolveReply_tame (env : EnvMap) (w : World) (ri model okey : String)
    (sfc : Option String) (cuc : String) : Tame (resolveReply env w ri model okey sfc cuc).2 := by
  unfold resolveReply
  repeat' first
    | apply tame_bind
    | intro a
    | split
    | exact tame_nil
    | exact call_openai_tame env w ri model okey sfc (some cuc)
    | exact try_cli_tame env w ri model

/-! ### Result invariants of the dispatcher stages -/

theorem ne_empty_of_left (a b : String) (h : a ≠ "") : a ++ b ≠ "" := by
  intro e
  apply h
  have hd := congrArg String.data e
  rw [String.data_append] at hd
  exact String.ext (by simpa using (List.append_eq_nil.mp hd).1)

theorem ne_empty_of_right (a b : String) (h : b ≠ "") : a ++ b ≠ "" := by
  intro e
  apply h
  have hd := congrArg String.data e
  rw [String.data_append] at hd
  exact String.ext (by simpa using (List.append_eq_nil.mp hd).2)

theorem placeholderText_ne : placeholderText ≠ "" := by decide

/-- A successful usable-text decision (replier.py line 212) only accepts
a string whose stripped form is non-blank; in particular the returned
string itself is non-empty. -/
theorem textDecision_some_ne {t : JVal} {s : String}
    (h : textDecision t = .ok (some s)) : s ≠ "" := by
  unfold textDecision at h
  by_cases ht : pyTruthy t = true
  · rw [if_pos ht] at h
    cases t with
    | jstr s' =>
      simp only [asStr, Except.bind, bind] at h
      by_cases hc : (pyStrip s' != "" && pyStrip s' != placeholderText) = true
      · rw [if_pos hc] at h
        cases h
        intro e
        rw [e] at hc
        simp [pyStrip, pyLstripL, pyRstripL] at hc
      · rw [if_neg hc] at h; cases h
    | null => simp [asStr, bind, Except.bind] at h
    | jnum n => simp [asStr, bind, Except.bind] at h
    | jbool b => simp [asStr, bind, Except.bind] at h
    | jarr xs => simp [asStr, bind, Except.bind] at h
    | jobj kvs => simp [asStr, bind, Except.bind] at h
  · rw [if_neg (by simpa using ht)] at h; cases h

/-- The chat extraction (lines 260-263) never yields an empty reply: a
blank or failed extraction becomes the placeholder. -/
theorem chatExtract_ne (cj : JVal) : chatExtract cj ≠ "" := by
  unfold chatExtract
  cases h : chatChoiceContent cj with
  | ok s =>
    by_cases hs : (s != "") = true
    · simpa [hs] using by simpa using hs
    · simp [hs]; exact placeholderText_ne
  | error m => exact placeholderText_ne

/-- `call_openai` never calls `sys.exit(0)`, and every reply string it
returns is non-empty. -/
theorem call_openai_result (env : EnvMap) (w : World) (p m k : String)
    (sfc cuc : Option String) :
    ((call_openai env w p m k sfc cuc).1 ≠ Except.error (ExitKind.code 0)) ∧
    (∀ s, (call_openai env w p m k sfc cuc).1 = Except.ok s → s ≠ "") := by
  unfold call_openai
  by_cases hdr : dryRunEnabled env = true
  · simp [hdr, eBind]
    intro e
    exact absurd e (by
      apply ne_empty_of_left
      apply ne_empty_of_left
      apply ne_empty_of_left
      decide)
  · cases hw : w.responses with
    | httpError code body => simp [hdr, hw, eBind, logE, callE, exitE]
    | exc msg => simp [hdr, hw, eBind, logE, callE, exitE]
    | ok rj =>
      by_cases he : pyTruthy (errField rj) = true
      · cases hm : errMessage (dictGet rj "error") with
        | ok msg =>
          simp [hdr, hw, he, hm, eBind, logE, callE, exitE, liftPy]
          intro e
          exact absurd e (ne_empty_of_left _ _ (by decide))
        | error m => simp [hdr, hw, he, hm, eBind, logE, callE, exitE, liftPy]
      · cases hx : extract_reply_text rj with
        | error m =>
          simp [hdr, hw, he, hx, eBind, logE, callE, exitE, liftPy]
        | ok text =>
          cases ht : textDecision text with
          | error m =>
            simp [hdr, hw, he, hx, ht, eBind, logE, callE, exitE, liftPy]
          | ok dec =>
            cases dec with
            | some s =>
              simp [hdr, hw, he, hx, ht, eBind, logE, callE, exitE, liftPy]
              exact textDecision_some_ne ht
            | none =>
              by_cases hcf : chatFallbackDisabled env = true
              · simp [hdr, hw, he, hx, ht, hcf, eBind, logE, callE, exitE, liftPy]
                exact placeholderText_ne
              · cases hc : w.chat with
                | httpError code body =>
                  simp [hdr, hw, he, hx, ht, hcf, hc, eBind, logE, callE, exitE, liftPy]
                  intro e
                  exact absurd e (by
                    apply ne_empty_of_left
                    apply ne_empty_of_left
                    apply ne_empty_of_left
                    decide)
                | exc m2 =>
                  simp [hdr, hw, he, hx, ht, hcf, hc, eBind, logE, callE, exitE, liftPy]
                  exact placeholderText_ne
                | ok cj =>
                  by_cases hce : pyTruthy (errField cj) = true
                  · cases hm2 : errMessage (dictGet cj "error") with
                    | ok msg =>
                      simp [hdr, hw, he, hx, ht, hcf, hc, hce, hm2, eBind, logE, callE, exitE,
                        liftPy]
                      intro e
                      exact absurd e (ne_empty_of_left _ _ (by decide))
                    | error m3 =>
                      simp [hdr, hw, he, hx, ht, hcf, hc, hce, hm2, eBind, logE, callE, exitE,
                        liftPy]
                  · simp [hdr, hw, he, hx, ht, hcf, hc, hce, eBind, logE, callE, exitE, liftPy]
                    exact chatExtract_ne cj

/-- Every CLI candidate accepted by the loop produced non-empty trimmed
stdout, and the loop itself never terminates the process. -/
theorem tryCliLoop_ok (w : World) (model prompt : String) :
    ∀ (ts : List String) (i : Nat), ∃ r, (tryCliLoop w model prompt ts i).1 = Except.ok r ∧
      ∀ s, r = some s → s ≠ "" := by
  intro ts
  induction ts with
  | nil => intro i; exact ⟨none, rfl, by simp⟩
  | cons t rest ih =>
    intro i
    unfold tryCliLoop
    cases hc : w.cli i with
    | exc m =>
      have := ih (i + 1)
      simpa [hc, eBind, logE, callE] using this
    | ran rc out err =>
      by_cases hrc : (rc != 0) = true
      · have := ih (i + 1)
        simpa [hc, hrc, eBind, logE, callE] using this
      · by_cases hso : (pyStrip out == "") = true
        · have := ih (i + 1)
          simpa [hc, hrc, hso, eBind, logE, callE] using this
        · refine ⟨some (pyStrip out), ?_, ?_⟩
          · simp [hc, hrc, hso, eBind, logE, callE]
          · intro s hs
            cases hs
            simpa using hso

theorem try_cli_ok (env : EnvMap) (w : World) (prompt model : String) :
    ∃ r, (try_cli env w prompt model).1 = Except.ok r ∧ ∀ s, r = some s → s ≠ "" := by
  unfold try_cli
  by_cases hd : cliDisabled env = true
  · exact ⟨none, by simp [hd, eBind, logE], by simp⟩
  · have := tryCliLoop_ok w model prompt (cliTemplates env) 0
    simpa [hd, eBind, logE] using this

theorem eBind_ok_inv {α β : Type} {x : ERes α} {f : α → ERes β} {b : β}
    (h : (eBind x f).1 = Except.ok b) : ∃ a, x.1 = Except.ok a ∧ (f a).1 = Except.ok b := by
  rcases x with ⟨r, e⟩
  cases r with
  | ok a => exact ⟨a, rfl, h⟩
  | error k => cases h

/-- The resolved reply: never an exit-0 termination, and every returned
reply string is non-empty. -/
theorem resolveReply_result (env : EnvMap) (w : World) (ri model okey : String)
    (sfc : Option String) (cuc : String) :
    ((resolveReply env w ri model okey sfc cuc).1 ≠ Except.error (ExitKind.code 0)) ∧
    (∀ s, (resolveReply env w ri model okey sfc cuc).1 = Except.ok s → s ≠ "") := by
  unfold resolveReply
  by_cases hdr : dryRunEnabled env = true
  · simpa [hdr] using call_openai_result env w ri model okey sfc (some cuc)
  · simp only [hdr, Bool.false_eq_true, if_false]
    obtain ⟨r0, hr0, hne0⟩ := try_cli_ok env w ri model
    constructor
    · intro hcon
      rcases htc : (try_cli env w ri model) with ⟨rr, ee⟩
      rw [htc] at hr0
      cases rr with
      | error k => cases hr0
      | ok a =>
        cases hr0
        simp only [ERes.bind_def, htc, eBind_ok] at hcon
        by_cases hfa : optFalsyStr r0 = true
        · rw [if_pos hfa] at hcon
          exact (call_openai_result env w ri model okey sfc (some cuc)).1 hcon
        · rw [if_neg (by simpa using hfa)] at hcon
          cases hcon
    · intro s hs
      obtain ⟨a, ha, hfa⟩ := eBind_ok_inv (by simpa [ERes.bind_def] using hs)
      rw [hr0] at ha
      cases ha
      by_cases hf : optFalsyStr r0 = true
      · rw [if_pos hf] at hfa
        exact (call_openai_result env w ri model okey sfc (some cuc)).2 s hfa
      · rw [if_neg (by simpa using hf)] at hfa
        cases r0 with
        | none => simp [optFalsyStr] at hf
        | some s0 =>
          simp only [ERes.pure_def] at hfa
          cases hfa
          simp only [Option.getD_some]
          exact hne0 s0 rfl

theorem post_comment_posted (env : EnvMap) (w : World) (o r n : JVal) (b gt : String) :
    (post_comment env w o r n b gt).2.posted = [b] := by
  unfold post_comment
  by_cases hdr : dryRunEnabled env = true
  · simp [hdr, eBind, postedE, logE, Eff.append_def, Eff.app]
  · cases hp : w.post <;>
      simp [hdr, hp, eBind, postedE, logE, callE, exitE, Eff.append_def, Eff.app]

theorem post_comment_dry (env : EnvMap) (w : World) (o r n : JVal) (b gt : String)
    (hdr : dryRunEnabled env = true) :
    post_comment env w o r n b gt = (.ok (), ⟨[], [wouldPostLog o r n b], [b]⟩) := by
  simp [post_comment, hdr, eBind, postedE, logE, Eff.append_def, Eff.app]

/-- Every body handed to the posting step is non-empty. -/
def GoodPosts {α : Type} (x : ERes α) : Prop := ∀ b ∈ x.2.posted, b ≠ ""

theorem gp_of_tame {α : Type} {x : ERes α} (h : Tame x.2) : GoodPosts x := by
  intro b hb
  rw [h.1] at hb
  cases hb

theorem gp_bind {α β : Type} {x : ERes α} {f : α → ERes β}
    (hx : GoodPosts x) (hf : ∀ a, GoodPosts (f a)) : GoodPosts (eBind x f) := by
  rcases x with ⟨r, e⟩
  cases r with
  | error k => exact hx
  | ok a =>
    intro b hb
    rcases List.mem_append.mp (by simpa [eBind, Eff.append_def, Eff.app] using hb) with h | h
    · exact hx b h
    · exact hf a b h

theorem gp_bind_q {α β : Type} {x : ERes α} {f : α → ERes β} {Q : α → Prop}
    (hx : Tame x.2) (hq : ∀ a, x.1 = Except.ok a → Q a)
    (hf : ∀ a, Q a → GoodPosts (f a)) : GoodPosts (eBind x f) := by
  rcases x with ⟨r, e⟩
  cases r with
  | error k => exact gp_of_tame hx
  | ok a =>
    intro b hb
    rcases List.mem_append.mp (by simpa [eBind, Eff.append_def, Eff.app] using hb) with h | h
    · rw [hx.1] at h; cases h
    · exact hf a (hq a rfl) b h

theorem gp_of_posted_nil {α : Type} {x : ERes α} (h : x.2.posted = []) : GoodPosts x := by
  intro b hb
  rw [h] at hb
  cases hb

set_option maxHeartbeats 1000000 in
/-- C10: in every run — over every loaded event, environment and world —
each comment body handed to the posting step is a non-empty string (the
dispatcher only resolves non-empty reply text, and the mention prefix is
prepended to it). -/
theorem claim_C10 (env : EnvMap) (event : JVal) (w : World) :
    ∀ b ∈ (mainRun env event w).2.posted, b ≠ "" := by
  suffices h : GoodPosts (mainRun env event w) from h
  unfold mainRun
  refine gp_bind (gp_of_tame (readCtx_tame event)) (fun ctx => ?_)
  refine gp_bind (gp_of_tame (tame_eE _ _)) (fun tp => ?_)
  refine gp_bind (gp_of_tame (tame_eE _ _)) (fun mv => ?_)
  refine gp_bind (gp_of_tame (tame_eE _ _)) (fun mav => ?_)
  refine gp_bind (gp_of_tame (tame_eE _ _)) (fun spv => ?_)
  refine gp_bind (gp_of_tame (tame_eE _ _)) (fun imv => ?_)
  refine gp_bind (gp_of_tame (tame_eE _ _)) (fun itv => ?_)
  refine gp_bind (gp_of_tame (tame_eE _ _)) (fun mcv => ?_)
  refine gp_bind (gp_of_tame (tame_eE _ _)) (fun mtv => ?_)
  split
  · exact gp_of_posted_nil rfl
  · refine gp_bind (gp_of_tame (tame_liftPy _)) (fun commentS => ?_)
    split
    · exact gp_of_posted_nil rfl
    · try simp only []
      split
      · exact gp_of_posted_nil rfl
      · refine gp_bind (gp_of_tame (tame_eE _ _)) (fun okv => ?_)
        try simp only []
        split
        · exact gp_of_posted_nil rfl
        · refine gp_bind (gp_of_tame (tame_eE _ _)) (fun ghv => ?_)
          refine gp_bind (gp_of_tame (build_prompt_tame _ _ _ _ _ _ _ _ _ _ _ _ _))
            (fun bp => ?_)
          refine gp_bind_q (resolveReply_tame _ _ _ _ _ _ _)
            (fun a ha => (resolveReply_result _ _ _ _ _ _ _).2 a ha) (fun reply hrep => ?_)
          refine gp_bind (gp_of_tame (tame_eE _ _)) (fun gh2 => ?_)
          try simp only []
          split
          · exact gp_of_posted_nil rfl
          · split
            · exact gp_of_posted_nil rfl
            · intro b hb
              rw [post_comment_posted] at hb
              rcases List.mem_singleton.mp hb with rfl
              exact ne_empty_of_right _ _ hrep

/-- The dry-run posting invariant: no comment-creation POST is issued,
and every body handed to the posting step appears in a logged
would-post line. -/
def DryPost {α : Type} (x : ERes α) : Prop :=
  (∀ c ∈ x.2.calls, c.isCommentPost = false) ∧
  (∀ b ∈ x.2.posted, ∃ o r n, wouldPostLog o r n b ∈ x.2.logs)

theorem dryPost_of_tame {α : Type} {x : ERes α} (h : Tame x.2) : DryPost x := by
  refine ⟨h.2, ?_⟩
  intro b hb
  rw [h.1] at hb
  cases hb

theorem dryPost_of_posted_nil {α : Type} {x : ERes α} (hp : x.2.posted = [])
    (hc : ∀ c ∈ x.2.calls, c.isCommentPost = false) : DryPost x := by
  refine ⟨hc, ?_⟩
  intro b hb
  rw [hp] at hb
  cases hb

theorem dryPost_bind {α β : Type} {x : ERes α} {f : α → ERes β}
    (hx : DryPost x) (hf : ∀ a, DryPost (f a)) : DryPost (eBind x f) := by
  rcases x with ⟨r, e⟩
  cases r with
  | error k => exact hx
  | ok a =>
    constructor
    · intro c hc
      rcases List.mem_append.mp (by simpa [eBind, Eff.append_def, Eff.app] using hc) with h | h
      · exact hx.1 c h
      · exact (hf a).1 c h
    · intro b hb
      rcases List.mem_append.mp (by simpa [eBind, Eff.append_def, Eff.app] using hb) with h | h
      · obtain ⟨o, rr, n, hl⟩ := hx.2 b h
        exact ⟨o, rr, n, by simp [eBind, Eff.append_def, Eff.app, List.mem_append]; left; exact hl⟩
      · obtain ⟨o, rr, n, hl⟩ := (hf a).2 b h
        exact ⟨o, rr, n, by simp [eBind, Eff.append_def, Eff.app, List.mem_append]; right; exact hl⟩

set_option maxHeartbeats 1000000 in
/-- C9: in every dry-run — over every loaded event, environment and
world — no comment-creation POST is issued anywhere in the run, and each
fully assembled body handed to the posting step (mention prefix
included) is contained in the logged would-post message. -/
theorem claim_C9 (env : EnvMap) (event : JVal) (w : World)
    (hdr : dryRunEnabled env = true) :
    (∀ c ∈ (mainRun env event w).2.calls, c.isCommentPost = false) ∧
    (∀ b ∈ (mainRun env event w).2.posted,
      ∃ o r n, wouldPostLog o r n b ∈ (mainRun env event w).2.logs) := by
  suffices h : DryPost (mainRun env event w) from h
  unfold mainRun
  refine dryPost_bind (dryPost_of_tame (readCtx_tame event)) (fun ctx => ?_)
  refine dryPost_bind (dryPost_of_tame (tame_eE _ _)) (fun tp => ?_)
  refine dryPost_bind (dryPost_of_tame (tame_eE _ _)) (fun mv => ?_)
  refine dryPost_bind (dryPost_of_tame (tame_eE _ _)) (fun mav => ?_)
  refine dryPost_bind (dryPost_of_tame (tame_eE _ _)) (fun spv => ?_)
  refine dryPost_bind (dryPost_of_tame (tame_eE _ _)) (fun imv => ?_)
  refine dryPost_bind (dryPost_of_tame (tame_eE _ _)) (fun itv => ?_)
  refine dryPost_bind (dryPost_of_tame (tame_eE _ _)) (fun mcv => ?_)
  refine dryPost_bind (dryPost_of_tame (tame_eE _ _)) (fun mtv => ?_)
  split
  · exact dryPost_of_posted_nil rfl (by intro c hc; simp [eBind, logE, exitE, Eff.append_def,
      Eff.app] at hc)
  · refine dryPost_bind (dryPost_of_tame (tame_liftPy _)) (fun commentS => ?_)
    split
    · exact dryPost_of_posted_nil rfl (by intro c hc; simp [eBind, logE, exitE, Eff.append_def,
        Eff.app] at hc)
    · try simp only []
      split
      · exact dryPost_of_posted_nil rfl (by intro c hc; simp [eBind, logE, exitE, Eff.append_def,
          Eff.app] at hc)
      · refine dryPost_bind (dryPost_of_tame (tame_eE _ _)) (fun okv => ?_)
        try simp only []
        split
        · exact dryPost_of_posted_nil rfl (by intro c hc; simp [eBind, logE, exitE,
            Eff.append_def, Eff.app] at hc)
        · refine dryPost_bind (dryPost_of_tame (tame_eE _ _)) (fun ghv => ?_)
          refine dryPost_bind (dryPost_of_tame (build_prompt_tame _ _ _ _ _ _ _ _ _ _ _ _ _))
            (fun bp => ?_)
          refine dryPost_bind (dryPost_of_tame (resolveReply_tame _ _ _ _ _ _ _))
            (fun reply => ?_)
          refine dryPost_bind (dryPost_of_tame (tame_eE _ _)) (fun gh2 => ?_)
          try simp only []
          split
          · exact dryPost_of_posted_nil rfl (by intro c hc; simp [eBind, logE, exitE,
              Eff.append_def, Eff.app] at hc)
          · split
            · exact dryPost_of_posted_nil rfl (by intro c hc; simp [eBind, logE, exitE,
                Eff.append_def, Eff.app] at hc)
            · rw [post_comment_dry _ _ _ _ _ _ _ hdr]
              refine ⟨by simp, ?_⟩
              intro b hb
              rcases List.mem_singleton.mp hb with rfl
              exact ⟨ctx.owner, ctx.repo_name, ctx.number, List.mem_singleton_self _⟩

def isOkE {α : Type} (x : Except ExitKind α) : Bool :=
  match x with
  | .ok _ => true
  | .error _ => false

set_option maxRecDepth 40000 in
set_option maxHeartbeats 4000000 in
theorem build_prompt_isOk (w : World) (g : GEvent) (o rn num : JVal) (ur model : String)
    (im ith : Bool) (mcc mtc : Int) (sp gt : String) :
    isOkE (build_prompt w (GEvent.toJVal g) o rn num ur model im ith mcc mtc sp gt).1 = true := by
  unfold build_prompt fetch_thread_comments
  cases hw : w.threadResp with
  | none =>
    by_cases him : im = true <;>
      by_cases hth : (ith && gt != "" && pyTruthy o && pyTruthy rn && pyTruthy num) = true <;>
        by_cases hro : (pyTruthy o && pyTruthy rn) = true <;>
          simp [him, hth, hro, hw, eBind, liftPy, pyGetE, pyGetDE, pyGet, pyGetD,
            GEvent.toJVal, dictGet, lookupKV, List.foldl, callE, logE, isOkE]
  | some items =>
    by_cases hemp : (threadSelect items (optIntJ g.commentId) mtc).isEmpty = true <;>
      by_cases him : im = true <;>
        by_cases hth : (ith && gt != "" && pyTruthy o && pyTruthy rn && pyTruthy num) = true <;>
          by_cases hro : (pyTruthy o && pyTruthy rn) = true <;>
            simp [hemp, him, hth, hro, hw, eBind, liftPy, pyGetE, pyGetDE, pyGet, pyGetD,
              GEvent.toJVal, dictGet, lookupKV, List.foldl, callE, logE, isOkE]


theorem ctxOf_action (g : GEvent) : (ctxOf g).action = optStrJ g.action := by simp [ctxOf]

theorem ctxOf_comment (g : GEvent) : (ctxOf g).comment = .jstr (g.commentBody.getD "") := by
  simp [ctxOf]

theorem ctxOf_commenter (g : GEvent) :
    (ctxOf g).commenter = .jstr (g.commentUserLogin.getD "") := by
  simp [ctxOf]

set_option maxRecDepth 40000 in
/-- C1 (amended): once the trigger filter has accepted a schema-shaped
event — if OPENAI_API_KEY is absent, the run exits 1 after printing the
missing-key error and attempts no outbound call of any kind; if
OPENAI_API_KEY is present but GITHUB_TOKEN is absent, the run still
terminates unsuccessfully and posts nothing, but the token check only
happens after the reply has been obtained, so outbound calls to the
model backend may already have been attempted (see the counterexample —
the original claim's "no outbound network call" is false for this
credential). -/
theorem claim_C1_amended (g : GEvent) (env : EnvMap) (w : World)
    (hact : g.action = some "created")
    (hpre : pyStartsWith (pyStrip (g.commentBody.getD ""))
      (pyStrip (orDflt (envGet env "INPUT_TRIGGER_PREFIX") "/codex")) = true)
    (hreq : (derived_request (g.commentBody.getD "")
      (pyStrip (orDflt (envGet env "INPUT_TRIGGER_PREFIX") "/codex")) == "") = false) :
    (envGet env "OPENAI_API_KEY" = none →
      exitOf (mainRun env (GEvent.toJVal g) w) = .code 1 ∧
      (mainRun env (GEvent.toJVal g) w).2.calls = [] ∧
      "::error title=Codex Replier::Missing OPENAI_API_KEY secret" ∈
        (mainRun env (GEvent.toJVal g) w).2.logs) ∧
    (∀ k, envGet env "OPENAI_API_KEY" = some k → k ≠ "" →
      envGet env "GITHUB_TOKEN" = none →
      exitOf (mainRun env (GEvent.toJVal g) w) ≠ .code 0 ∧
      (mainRun env (GEvent.toJVal g) w).2.posted = []) := by
  have hreq2 : ¬(derived_request (g.commentBody.getD "")
      (pyStrip (orDflt (envGet env "INPUT_TRIGGER_PREFIX") "/codex")) = "") := by
    simpa using hreq
  constructor
  · intro hkey
    simp [mainRun, readCtx_toJVal, eE, eBind, logE, exitE, exitOf, ctxOf, optStrJ, JVal.beq,
      hact, asStrE, asStr, liftPy, hpre, hreq2, hkey, optFalsyStr, Eff.append_def, Eff.app,
      Eff.nil]
  · intro k hkey hk hgh
    have hk2 : (k == "") = false := by simpa using hk
    simp only [mainRun, readCtx_toJVal, eE, eBind, logE, exitE, exitOf, ctxOf_action,
      ctxOf_comment, ctxOf_commenter, hact, optStrJ, asStrE, asStr, liftPy, hkey, hk2, hgh,
      optFalsyStr, ERes.bind_def, ERes.pure_def]
    simp only [JVal.beq, beq_self_eq_true, Bool.not_true, Bool.false_eq_true, if_false,
      reduceIte, hpre, hreq, hreq2]
    rcases hbp : build_prompt w g.toJVal (ctxOf g).owner (ctxOf g).repo_name (ctxOf g).number
        (derived_request (g.commentBody.getD "")
          (pyStrip (orDflt (envGet env "INPUT_TRIGGER_PREFIX") "/codex")))
        (pyStrip (orDflt (envGet env "INPUT_MODEL") "o4-mini"))
        (boolish (some (orDflt (envGet env "INPUT_INCLUDE_METADATA") "true")) true)
        (boolish (some (orDflt (envGet env "INPUT_INCLUDE_THREAD_CONTEXT") "true")) true)
        ((pyInt (orDflt (envGet env "INPUT_MAX_CONTEXT_CHARS") "8000")).getD 8000)
        ((pyInt (orDflt (envGet env "INPUT_MAX_THREAD_COMMENTS") "5")).getD 5)
        (orDflt (envGet env "INPUT_SYSTEM_PROMPT") "") (orDflt none "") with ⟨rbp, ebp⟩
    have hbpT : Tame ebp := by
      have h0 := build_prompt_tame w g.toJVal (ctxOf g).owner (ctxOf g).repo_name
        (ctxOf g).number
        (derived_request (g.commentBody.getD "")
          (pyStrip (orDflt (envGet env "INPUT_TRIGGER_PREFIX") "/codex")))
        (pyStrip (orDflt (envGet env "INPUT_MODEL") "o4-mini"))
        (boolish (some (orDflt (envGet env "INPUT_INCLUDE_METADATA") "true")) true)
        (boolish (some (orDflt (envGet env "INPUT_INCLUDE_THREAD_CONTEXT") "true")) true)
        ((pyInt (orDflt (envGet env "INPUT_MAX_CONTEXT_CHARS") "8000")).getD 8000)
        ((pyInt (orDflt (envGet env "INPUT_MAX_THREAD_COMMENTS") "5")).getD 5)
        (orDflt (envGet env "INPUT_SYSTEM_PROMPT") "") (orDflt none "")
      rw [hbp] at h0
      exact h0
    have hbpOk := build_prompt_isOk w g (ctxOf g).owner (ctxOf g).repo_name (ctxOf g).number
        (derived_request (g.commentBody.getD "")
          (pyStrip (orDflt (envGet env "INPUT_TRIGGER_PREFIX") "/codex")))
        (pyStrip (orDflt (envGet env "INPUT_MODEL") "o4-mini"))
        (boolish (some (orDflt (envGet env "INPUT_INCLUDE_METADATA") "true")) true)
        (boolish (some (orDflt (envGet env "INPUT_INCLUDE_THREAD_CONTEXT") "true")) true)
        ((pyInt (orDflt (envGet env "INPUT_MAX_CONTEXT_CHARS") "8000")).getD 8000)
        ((pyInt (orDflt (envGet env "INPUT_MAX_THREAD_COMMENTS") "5")).getD 5)
        (orDflt (envGet env "INPUT_SYSTEM_PROMPT") "") (orDflt none "")
    rw [hbp] at hbpOk
    cases rbp with
    | error kk => simp [isOkE] at hbpOk
    | ok bp =>
      rcases hrr : resolveReply env w bp.1
          (pyStrip (orDflt (envGet env "INPUT_MODEL") "o4-mini")) (orDflt (some k) "") bp.2.1
          bp.2.2 with ⟨rr, err⟩
      have hrrT : Tame err := by
        have h1 := resolveReply_tame env w bp.1
          (pyStrip (orDflt (envGet env "INPUT_MODEL") "o4-mini")) (orDflt (some k) "") bp.2.1
          bp.2.2
        rw [hrr] at h1
        exact h1
      have hrrR := resolveReply_result env w bp.1
        (pyStrip (orDflt (envGet env "INPUT_MODEL") "o4-mini")) (orDflt (some k) "") bp.2.1
        bp.2.2
      rw [hrr] at hrrR
      cases rr with
      | error k2 =>
        refine ⟨?_, ?_⟩
        · intro h
          simp at h
          rw [hrr] at h
          simp at h
          exact hrrR.1 (by simp [h])
        · simp [hrr, hbpT.1, hrrT.1, Eff.append_def, Eff.app, Eff.nil]
      | ok reply =>
        refine ⟨?_, ?_⟩
        · intro h
          simp at h
          rw [hrr] at h
          simp at h
        · simp [hrr, hbpT.1, hrrT.1, Eff.append_def, Eff.app, Eff.nil]

/-- A schema-shaped triggering event used by concrete runs. -/
def gC1 : GEvent :=
  ⟨some "created", some "/codex hi", some "alice", some 10, some 1, some "Title",
    some "http://x", false, none, some "octo/repo", none, none⟩

def envC1 : EnvMap := [("OPENAI_API_KEY", "sk-test"), ("CODEX_CLI_DISABLE", "1")]

def wC1 : World :=
  ⟨none, .ok (.jobj [("output_text", .jstr "hi")]), .exc "down", fun _ => .exc "no cli", .ok⟩

/-- C1 counterexample: with the trigger accepted, OPENAI_API_KEY present
and GITHUB_TOKEN absent, the run does exit 1 — but it has already issued
an outbound POST to the Responses endpoint, contradicting the claim's
"no outbound network call is attempted". -/
theorem claim_C1_counterexample :
    exitOf (mainRun envC1 (GEvent.toJVal gC1) wC1) = .code 1 ∧
    (mainRun envC1 (GEvent.toJVal gC1) wC1).2.calls ≠ [] := by
  constructor
  · rfl
  · intro h
    exact absurd h (List.cons_ne_nil _ _)

/-- C1 witness: the missing-OPENAI_API_KEY half of the amended claim at
a concrete run with an empty environment. -/
theorem claim_C1_witness :
    exitOf (mainRun [] (GEvent.toJVal gC1) wC1) = .code 1 ∧
    (mainRun [] (GEvent.toJVal gC1) wC1).2.calls = [] ∧
    "::error title=Codex Replier::Missing OPENAI_API_KEY secret" ∈
      (mainRun [] (GEvent.toJVal gC1) wC1).2.logs :=
  (claim_C1_amended gC1 [] wC1 rfl (by decide) (by decide)).1 rfl

theorem resolveReply_errObj (env : EnvMap) (w : World) (ri model okey : String)
    (sfc : Option String) (cuc : String)
    (hdr : dryRunEnabled env = false) (hcli : cliDisabled env = true)
    (hresp : w.responses = .ok (.jobj [("error", .jobj [("message", .jstr "boom")])])) :
    (resolveReply env w ri model okey sfc cuc).1 = .ok "(OpenAI error) boom" := by
  simp [resolveReply, hdr, try_cli, hcli, call_openai, hresp, eBind, logE, callE, liftPy,
    errField, dictGet, lookupKV, List.foldl, errMessage, pyGet, pyTruthy, pyStr, optFalsyStr,
    bind, Except.bind, pure, Except.pure, ePure, Eff.append_def, Eff.app, Eff.nil]

theorem post_comment_real_ok (env : EnvMap) (w : World) (o r n : JVal) (b gt : String)
    (hdr : dryRunEnabled env = false) (hp : w.post = .ok) :
    post_comment env w o r n b gt = (.ok (),
      ⟨[.commentPost o r n b],
       ["::group::Posting reply to GitHub", "::endgroup::",
        "::notice title=Codex Replier::Reply posted successfully"], [b]⟩) := by
  simp [post_comment, hdr, hp, eBind, postedE, logE, callE, Eff.append_def, Eff.app, Eff.nil]

set_option maxRecDepth 40000 in
/-- C4: when stage 2 answers with the application-error object
`{"error": {"message": "boom"}}` (trigger accepted, both credentials
present, dry-run off, CLI stage disabled, addressing resolvable, posting
succeeding), the body posted is exactly "(OpenAI error) boom" prefixed
by the mention string when the mention flag is enabled and a commenter
login is known, and the process exits 0. -/
theorem claim_C4 (g : GEvent) (env : EnvMap) (w : World) (k t : String)
    (hact : g.action = some "created")
    (hpre : pyStartsWith (pyStrip (g.commentBody.getD ""))
      (pyStrip (orDflt (envGet env "INPUT_TRIGGER_PREFIX") "/codex")) = true)
    (hreq : (derived_request (g.commentBody.getD "")
      (pyStrip (orDflt (envGet env "INPUT_TRIGGER_PREFIX") "/codex")) == "") = false)
    (hkey : envGet env "OPENAI_API_KEY" = some k) (hk : k ≠ "")
    (hgh : envGet env "GITHUB_TOKEN" = some t) (ht : t ≠ "")
    (hdr : dryRunEnabled env = false) (hcli : cliDisabled env = true)
    (hresp : w.responses = .ok (.jobj [("error", .jobj [("message", .jstr "boom")])]))
    (hpost : w.post = .ok)
    (hao : pyTruthy (ctxOf g).owner = true) (har : pyTruthy (ctxOf g).repo_name = true)
    (han : pyTruthy (ctxOf g).number = true) :
    exitOf (mainRun env (GEvent.toJVal g) w) = .code 0 ∧
    (mainRun env (GEvent.toJVal g) w).2.posted =
      [(if boolish (some (orDflt (envGet env "INPUT_MENTION_AUTHOR") "true")) true &&
          pyTruthy (JVal.jstr (g.commentUserLogin.getD "")) then
          "@" ++ g.commentUserLogin.getD "" ++ " "
        else "") ++ "(OpenAI error) boom"] := by
  have hreq2 : ¬(derived_request (g.commentBody.getD "")
      (pyStrip (orDflt (envGet env "INPUT_TRIGGER_PREFIX") "/codex")) = "") := by
    simpa using hreq
  have hk2 : (k == "") = false := by simpa using hk
  have ht2 : (t == "") = false := by simpa using ht
  simp only [mainRun, readCtx_toJVal, eE, eBind, logE, exitE, exitOf, ctxOf_action,
    ctxOf_comment, ctxOf_commenter, hact, optStrJ, asStrE, asStr, liftPy, hkey, hk2, hgh, ht2,
    optFalsyStr, ERes.bind_def, ERes.pure_def]
  simp only [JVal.beq, beq_self_eq_true, Bool.not_true, Bool.false_eq_true, if_false,
    reduceIte, hpre, hreq, hreq2, hao, har, han, Bool.and_self, Bool.not_false, if_true]
  rcases hbp : build_prompt w g.toJVal (ctxOf g).owner (ctxOf g).repo_name (ctxOf g).number
      (derived_request (g.commentBody.getD "")
        (pyStrip (orDflt (envGet env "INPUT_TRIGGER_PREFIX") "/codex")))
      (pyStrip (orDflt (envGet env "INPUT_MODEL") "o4-mini"))
      (boolish (some (orDflt (envGet env "INPUT_INCLUDE_METADATA") "true")) true)
      (boolish (some (orDflt (envGet env "INPUT_INCLUDE_THREAD_CONTEXT") "true")) true)
      ((pyInt (orDflt (envGet env "INPUT_MAX_CONTEXT_CHARS") "8000")).getD 8000)
      ((pyInt (orDflt (envGet env "INPUT_MAX_THREAD_COMMENTS") "5")).getD 5)
      (orDflt (envGet env "INPUT_SYSTEM_PROMPT") "") (orDflt (some t) "") with ⟨rbp, ebp⟩
  have hbpT : Tame ebp := by
    have h0 := build_prompt_tame w g.toJVal (ctxOf g).owner (ctxOf g).repo_name (ctxOf g).number
      (derived_request (g.commentBody.getD "")
        (pyStrip (orDflt (envGet env "INPUT_TRIGGER_PREFIX") "/codex")))
      (pyStrip (orDflt (envGet env "INPUT_MODEL") "o4-mini"))
      (boolish (some (orDflt (envGet env "INPUT_INCLUDE_METADATA") "true")) true)
      (boolish (some (orDflt (envGet env "INPUT_INCLUDE_THREAD_CONTEXT") "true")) true)
      ((pyInt (orDflt (envGet env "INPUT_MAX_CONTEXT_CHARS") "8000")).getD 8000)
      ((pyInt (orDflt (envGet env "INPUT_MAX_THREAD_COMMENTS") "5")).getD 5)
      (orDflt (envGet env "INPUT_SYSTEM_PROMPT") "") (orDflt (some t) "")
    rw [hbp] at h0
    exact h0
  have hbpOk := build_prompt_isOk w g (ctxOf g).owner (ctxOf g).repo_name (ctxOf g).number
      (derived_request (g.commentBody.getD "")
        (pyStrip (orDflt (envGet env "INPUT_TRIGGER_PREFIX") "/codex")))
      (pyStrip (orDflt (envGet env "INPUT_MODEL") "o4-mini"))
      (boolish (some (orDflt (envGet env "INPUT_INCLUDE_METADATA") "true")) true)
      (boolish (some (orDflt (envGet env "INPUT_INCLUDE_THREAD_CONTEXT") "true")) true)
      ((pyInt (orDflt (envGet env "INPUT_MAX_CONTEXT_CHARS") "8000")).getD 8000)
      ((pyInt (orDflt (envGet env "INPUT_MAX_THREAD_COMMENTS") "5")).getD 5)
      (orDflt (envGet env "INPUT_SYSTEM_PROMPT") "") (orDflt (some t) "")
  rw [hbp] at hbpOk
  cases rbp with
  | error kk => simp [isOkE] at hbpOk
  | ok bp =>
    rcases hrr : resolveReply env w bp.1
        (pyStrip (orDflt (envGet env "INPUT_MODEL") "o4-mini")) (orDflt (some k) "") bp.2.1
        bp.2.2 with ⟨rr, err⟩
    have hrrT : Tame err := by
      have h1 := resolveReply_tame env w bp.1
        (pyStrip (orDflt (envGet env "INPUT_MODEL") "o4-mini")) (orDflt (some k) "") bp.2.1
        bp.2.2
      rw [hrr] at h1
      exact h1
    have hrrV := resolveReply_errObj env w bp.1
      (pyStrip (orDflt (envGet env "INPUT_MODEL") "o4-mini")) (orDflt (some k) "") bp.2.1
      bp.2.2 hdr hcli hresp
    rw [hrr] at hrrV
    cases rr with
    | error k2 => cases hrrV
    | ok reply =>
      have hrep : reply = "(OpenAI error) boom" := by
        cases hrrV
        rfl
      subst hrep
      constructor
      · simp [hrr, post_comment_real_ok _ _ _ _ _ _ _ hdr hpost, eBind, Eff.append_def,
          Eff.app, Eff.nil, pyStr]
      · simp [hrr, post_comment_real_ok _ _ _ _ _ _ _ hdr hpost, eBind, Eff.append_def,
          Eff.app, Eff.nil, hbpT.1, hrrT.1, pyStr]

def envC4 : EnvMap :=
  [("OPENAI_API_KEY", "sk-test"), ("GITHUB_TOKEN", "gh-test"), ("CODEX_CLI_DISABLE", "1")]

def wC4 : World :=
  ⟨none, .ok (.jobj [("error", .jobj [("message", .jstr "boom")])]), .exc "down",
    fun _ => .exc "no cli", .ok⟩

/-- C4 witness: the claim at a concrete run ending in a posted
"@alice (OpenAI error) boom" comment and exit 0. -/
theorem claim_C4_witness :
    exitOf (mainRun envC4 (GEvent.toJVal gC1) wC4) = .code 0 ∧
    (mainRun envC4 (GEvent.toJVal gC1) wC4).2.posted =
      [(if boolish (some (orDflt (envGet envC4 "INPUT_MENTION_AUTHOR") "true")) true &&
          pyTruthy (JVal.jstr (gC1.commentUserLogin.getD "")) then
          "@" ++ gC1.commentUserLogin.getD "" ++ " "
        else "") ++ "(OpenAI error) boom"] :=
  claim_C4 gC1 envC4 wC4 "sk-test" "gh-test" rfl (by decide) (by decide) rfl (by decide) rfl
    (by decide) (by decide) (by decide) rfl rfl (by decide) (by decide) (by decide)

def envDry : EnvMap :=
  [("CODEX_DRY_RUN", "1"), ("OPENAI_API_KEY", "sk-test"), ("GITHUB_TOKEN", "gh-test")]

/-- C9 witness: in a concrete dry run the one outbound request (the
thread-context GET) is not a comment-creation POST, via the claim. -/
theorem claim_C9_witness :
    NetCall.isCommentPost
      (NetCall.threadGet (JVal.jstr "octo") (JVal.jstr "repo") (JVal.jnum 1)) = false :=
  (claim_C9 envDry (GEvent.toJVal gC1) wC4 (by decide)).1
    (NetCall.threadGet (JVal.jstr "octo") (JVal.jstr "repo") (JVal.jnum 1))
    (by
      rw [show (mainRun envDry (GEvent.toJVal gC1) wC4).2.calls =
        [NetCall.threadGet (JVal.jstr "octo") (JVal.jstr "repo") (JVal.jnum 1)] from rfl]
      exact List.mem_singleton_self _)

/-- C10 witness: the concrete posted body of the C4 run is non-empty,
via the claim. -/
theorem claim_C10_witness : "@alice (OpenAI error) boom" ≠ "" :=
  claim_C10 envC4 (GEvent.toJVal gC1) wC4 "@alice (OpenAI error) boom"
    (by
      rw [show (mainRun envC4 (GEvent.toJVal gC1) wC4).2.posted =
        ["@alice (OpenAI error) boom"] from rfl]
      exact List.mem_singleton_self _)
